import Mathlib

set_option maxRecDepth 8192
set_option maxHeartbeats 1000000

/-!
Verification development for the ftpd FTP server's per-session protocol
engine (source: ftpSession.cpp and platform glue).

Modelling conventions:
* C++ strings are modelled as `List Char`.
* Machine integers are `Nat`/`Int`; where overflow matters the reduction
  modulo `2 ^ w` is written out explicitly.
* External collaborators (filesystem stat/open/seek, sockets, zlib) are
  modelled as oracle functions in an `Env` record giving the results the
  platform calls would return.
* `sendResponse` is modelled as appending the reply text to an ordered
  reply log; the non-blocking flush of the response buffer is abstracted.
-/

namespace Ftpd

/-- Convert a Lean string literal to the character-list representation used
throughout this development. -/
def chars (s : String) : List Char := s.toList

/-! ## PathCodec -/

/-- `decodePath` (ftpSession.cpp): each NUL byte in the buffer is decoded
back to LF, all other bytes unchanged. -/
def decodePath (buf : List Char) : List Char :=
  buf.map (fun c => if c = '\x00' then '\n' else c)

/-- `encodePath` (ftpSession.cpp): LF is encoded as NUL; when `quotes` is
requested every double quote is doubled.  The source's fast path that
returns the input unchanged when nothing needs escaping produces the same
string as the character-by-character copy modelled here. -/
def encodePath (quotes : Bool) : List Char → List Char
  | [] => []
  | c :: rest =>
    if c = '\n' then '\x00' :: encodePath quotes rest
    else if quotes && c == '"' then '"' :: '"' :: encodePath quotes rest
    else c :: encodePath quotes rest

/-- `dirName` (ftpSession.cpp): everything before the final `/` of the path
(`substr (0, rfind ('/'))`), or `"/"` when that prefix is empty. -/
def dirName (path : List Char) : List Char :=
  let dir :=
    match (path.reverse.dropWhile (fun x => x != '/')) with
    | [] => path
    | _ :: t => t.reverse
  if dir = [] then chars "/" else dir

/-- Accumulator worker for `splitComps`: `cur` holds the characters of the
component currently being scanned, in reverse. -/
def splitAux (cur : List Char) : List Char → List (List Char)
  | [] => if cur = [] then [] else [cur.reverse]
  | c :: rest =>
    if c = '/' then (if cur = [] then [] else [cur.reverse]) ++ splitAux [] rest
    else splitAux (c :: cur) rest

/-- The component split of `resolvePath` (ftpSession.cpp): components are
the maximal `/`-free runs, empty components are dropped.  The source scans
from index 1 after asserting a leading `/`; skipping leading slashes here
gives the identical component list. -/
def splitComps (l : List Char) : List (List Char) := splitAux [] l

theorem splitComps_nil : splitComps [] = [] := rfl

theorem splitComps_slash (rest : List Char) :
    splitComps ('/' :: rest) = splitComps rest := by
  simp [splitComps, splitAux]

theorem splitAux_eq_cons {cur : List Char} (hcur : cur ≠ []) (rest : List Char) :
    splitAux cur rest =
      (cur.reverse ++ rest.takeWhile (fun x => x != '/')) ::
        splitComps (rest.dropWhile (fun x => x != '/')) := by
  induction rest generalizing cur with
  | nil => simp [splitAux, hcur, splitComps_nil]
  | cons c rest ih =>
    by_cases hc : c = '/'
    · subst hc
      rw [splitAux, if_pos rfl, if_neg hcur]
      rw [List.takeWhile_cons_of_neg (by simp), List.dropWhile_cons_of_neg (by simp)]
      rw [List.singleton_append, List.append_nil, splitComps_slash]
      rfl
    · rw [splitAux, if_neg hc, ih (by simp)]
      rw [List.takeWhile_cons_of_pos (by simp [hc]), List.dropWhile_cons_of_pos (by simp [hc])]
      simp

theorem splitComps_cons {c : Char} (hc : ¬ c = '/') (rest : List Char) :
    splitComps (c :: rest) =
      (c :: rest.takeWhile (fun x => x != '/')) ::
        splitComps (rest.dropWhile (fun x => x != '/')) := by
  rw [splitComps, splitAux, if_neg hc, splitAux_eq_cons (by simp)]
  simp

/-- The `.`/`..` collapse loop of `resolvePath` (ftpSession.cpp): the
components already processed sit in `acc` (the part of the vector before
the iterator); `.` is erased, `..` erases the previous component when one
exists, then itself. -/
def collapseDots (acc : List (List Char)) : List (List Char) → List (List Char)
  | [] => acc
  | c :: rest =>
    if c = chars "." then collapseDots acc rest
    else if c = chars ".." then collapseDots acc.dropLast rest
    else collapseDots (acc ++ [c]) rest

/-- The join loop of `resolvePath` (ftpSession.cpp): `outPath = "/"`, every
component is appended followed by `/`, and the trailing `/` is popped when
the result is longer than `"/"`. -/
def joinComponents (cs : List (List Char)) : List Char :=
  let out := '/' :: (cs.map (fun c => c ++ ['/'])).flatten
  if out.length > 1 then out.dropLast else out

/-- Filesystem stat record (the fields of `stat_t` this program reads). -/
structure StatRec where
  mode : Nat
  size : Nat
  mtime : Int
  nlink : Nat
  uid : Nat
  gid : Nat
deriving DecidableEq

def S_IFMT : Nat := 0o170000
def S_IFREG : Nat := 0o100000
def S_IFDIR : Nat := 0o040000
def S_IRUSR : Nat := 0o400
def S_IWUSR : Nat := 0o200
def S_IXUSR : Nat := 0o100

def S_ISREG (m : Nat) : Bool := m &&& S_IFMT == S_IFREG
def S_ISDIR (m : Nat) : Bool := m &&& S_IFMT == S_IFDIR

/-- `resolvePath` (ftpSession.cpp): fails when the parent directory fails to
stat or is not a directory (the source returns the empty string and sets
`errno`, modelled as `none`); otherwise splits the path into components,
collapses `.`/`..` and joins the canonical absolute form.  `statFn` is the
filesystem oracle for `::stat`. -/
def resolvePath (statFn : List Char → Option StatRec) (path : List Char) :
    Option (List Char) :=
  match statFn (dirName path) with
  | none => none
  | some st =>
    if S_ISDIR st.mode then
      some (joinComponents (collapseDots [] (splitComps path)))
    else none

/-- The slash-coalescing loop of `buildPath` (ftpSession.cpp): a `/` whose
predecessor is also `/` is erased.  Scanning left to right and erasing the
second of each adjacent pair collapses every run of slashes to one, which
is what this (structurally recursive) formulation computes. -/
def squashSlashes : List Char → List Char
  | [] => []
  | [a] => [a]
  | a :: b :: rest =>
    if a = '/' ∧ b = '/' then squashSlashes (b :: rest)
    else a :: squashSlashes (b :: rest)

/-- `buildPath` (ftpSession.cpp): absolute when the argument begins with
`/`, otherwise `cwd + '/' + args`; consecutive slashes are coalesced.  (For
an empty argument the C string's first byte is NUL, taking the relative
branch, as modelled by `head?`.) -/
def buildPath (cwd args : List Char) : List Char :=
  squashSlashes (if args.head? = some '/' then args else cwd ++ '/' :: args)

/-- `buildResolvedPath` (ftpSession.cpp). -/
def buildResolvedPath (statFn : List Char → Option StatRec)
    (cwd args : List Char) : Option (List Char) :=
  resolvePath statFn (buildPath cwd args)

/-- No two consecutive `/` characters occur in the string. -/
def noDoubleSlash : List Char → Bool
  | [] => true
  | [_] => true
  | a :: b :: rest => !(a == '/' && b == '/') && noDoubleSlash (b :: rest)

/-! ### Canonical-form lemmas for `resolvePath` (claim C3) -/

theorem takeWhile_append_all {p : Char → Bool} {l₁ l₂ : List Char}
    (h : ∀ a ∈ l₁, p a = true) :
    (l₁ ++ l₂).takeWhile p = l₁ ++ l₂.takeWhile p := by
  induction l₁ with
  | nil => simp
  | cons a t ih =>
    rw [List.cons_append, List.takeWhile_cons_of_pos (h a (by simp)),
      ih (fun x hx => h x (by simp [hx])), List.cons_append]

theorem dropWhile_append_all {p : Char → Bool} {l₁ l₂ : List Char}
    (h : ∀ a ∈ l₁, p a = true) :
    (l₁ ++ l₂).dropWhile p = l₂.dropWhile p := by
  induction l₁ with
  | nil => simp
  | cons a t ih =>
    rw [List.cons_append, List.dropWhile_cons_of_pos (h a (by simp))]
    exact ih (fun x hx => h x (by simp [hx]))

theorem splitAux_good (l : List Char) :
    ∀ cur, '/' ∉ cur → ∀ c ∈ splitAux cur l, c ≠ [] ∧ '/' ∉ c := by
  induction l with
  | nil =>
    intro cur hcur c hc
    rw [splitAux] at hc
    by_cases h0 : cur = []
    · rw [if_pos h0] at hc
      simp at hc
    · rw [if_neg h0] at hc
      simp only [List.mem_singleton] at hc
      subst hc
      exact ⟨by simpa using h0, by simpa using hcur⟩
  | cons a rest ih =>
    intro cur hcur c hc
    rw [splitAux] at hc
    by_cases ha : a = '/'
    · rw [if_pos ha] at hc
      rcases List.mem_append.mp hc with hc | hc
      · by_cases h0 : cur = []
        · rw [if_pos h0] at hc
          simp at hc
        · rw [if_neg h0] at hc
          simp only [List.mem_singleton] at hc
          subst hc
          exact ⟨by simpa using h0, by simpa using hcur⟩
      · exact ih [] (by simp) c hc
    · rw [if_neg ha] at hc
      refine ih (a :: cur) ?_ c hc
      intro hmem
      rcases List.mem_cons.mp hmem with h | h
      · exact ha h.symm
      · exact hcur h

theorem splitComps_good (l : List Char) :
    ∀ c ∈ splitComps l, c ≠ [] ∧ '/' ∉ c :=
  splitAux_good l [] (by simp)

theorem mem_collapseDots {acc l : List (List Char)} {c : List Char}
    (h : c ∈ collapseDots acc l) :
    c ∈ acc ∨ (c ∈ l ∧ c ≠ chars "." ∧ c ≠ chars "..") := by
  induction l generalizing acc with
  | nil => exact Or.inl (by simpa [collapseDots] using h)
  | cons a rest ih =>
    rw [collapseDots] at h
    by_cases h1 : a = chars "."
    · rw [if_pos h1] at h
      rcases ih h with h' | h'
      · exact Or.inl h'
      · exact Or.inr ⟨List.mem_cons_of_mem _ h'.1, h'.2⟩
    · rw [if_neg h1] at h
      by_cases h2 : a = chars ".."
      · rw [if_pos h2] at h
        rcases ih h with h' | h'
        · exact Or.inl (List.dropLast_subset _ h')
        · exact Or.inr ⟨List.mem_cons_of_mem _ h'.1, h'.2⟩
      · rw [if_neg h2] at h
        rcases ih h with h' | h'
        · rcases List.mem_append.mp h' with h'' | h''
          · exact Or.inl h''
          · simp only [List.mem_singleton] at h''
            subst h''
            exact Or.inr ⟨List.mem_cons_self _ _, h1, h2⟩
        · exact Or.inr ⟨List.mem_cons_of_mem _ h'.1, h'.2⟩

theorem takeWhile_all {p : Char → Bool} {l : List Char}
    (h : ∀ a ∈ l, p a = true) : l.takeWhile p = l := by
  induction l with
  | nil => simp
  | cons a t ih =>
    rw [List.takeWhile_cons_of_pos (h a (by simp)),
      ih (fun x hx => h x (by simp [hx]))]

theorem dropWhile_all {p : Char → Bool} {l : List Char}
    (h : ∀ a ∈ l, p a = true) : l.dropWhile p = [] := by
  induction l with
  | nil => simp
  | cons a t ih =>
    rw [List.dropWhile_cons_of_pos (h a (by simp))]
    exact ih (fun x hx => h x (by simp [hx]))

theorem splitComps_singleton {c : List Char} (hne : c ≠ []) (hs : '/' ∉ c) :
    splitComps c = [c] := by
  rcases c with _ | ⟨a, t⟩
  · exact absurd rfl hne
  · have ha : ¬ a = '/' := fun h => hs (h ▸ List.mem_cons_self _ _)
    have hall : ∀ x ∈ t, (fun x => x != '/') x = true := by
      intro x hx
      simp only [bne_iff_ne, ne_eq, decide_eq_true_eq]
      exact fun h => hs (h ▸ List.mem_cons_of_mem _ hx)
    rw [splitComps_cons ha, takeWhile_all hall, dropWhile_all hall, splitComps_nil]

theorem splitComps_comp_slash {c t : List Char} (hne : c ≠ []) (hs : '/' ∉ c) :
    splitComps (c ++ '/' :: t) = c :: splitComps t := by
  rcases c with _ | ⟨a, t'⟩
  · exact absurd rfl hne
  · have ha : ¬ a = '/' := fun h => hs (h ▸ List.mem_cons_self _ _)
    have hall : ∀ x ∈ t', (fun x => x != '/') x = true := by
      intro x hx
      simp only [bne_iff_ne, ne_eq, decide_eq_true_eq]
      exact fun h => hs (h ▸ List.mem_cons_of_mem _ hx)
    rw [List.cons_append, splitComps_cons ha]
    rw [takeWhile_append_all hall, dropWhile_append_all hall]
    rw [List.takeWhile_cons_of_neg (by simp), List.dropWhile_cons_of_neg (by simp)]
    rw [List.append_nil, splitComps_slash]

theorem flatten_slash_ne_nil {cs : List (List Char)} (hne : cs ≠ []) :
    (cs.map (fun c => c ++ ['/'])).flatten ≠ [] := by
  rcases cs with _ | ⟨c, cs'⟩
  · exact absurd rfl hne
  · simp

theorem splitComps_dropLast_flat (cs : List (List Char))
    (h : ∀ c ∈ cs, c ≠ [] ∧ '/' ∉ c) :
    splitComps ((cs.map (fun c => c ++ ['/'])).flatten).dropLast = cs := by
  induction cs with
  | nil => simp [splitComps_nil]
  | cons c cs' ih =>
    have hc := h c (by simp)
    rcases cs' with _ | ⟨d, cs''⟩
    · simp only [List.map_cons, List.map_nil, List.flatten_cons, List.flatten_nil,
        List.append_nil, List.dropLast_concat]
      exact splitComps_singleton hc.1 hc.2
    · have hf : ((d :: cs'').map (fun c => c ++ ['/'])).flatten ≠ [] :=
        flatten_slash_ne_nil (by simp)
      rw [List.map_cons, List.flatten_cons,
        List.dropLast_append_of_ne_nil _ hf]
      have : c ++ ['/'] ++ ((d :: cs'').map (fun c => c ++ ['/'])).flatten.dropLast
          = c ++ '/' :: ((d :: cs'').map (fun c => c ++ ['/'])).flatten.dropLast := by
        simp
      rw [this, splitComps_comp_slash hc.1 hc.2]
      rw [ih (fun x hx => h x (List.mem_cons_of_mem _ hx))]

theorem splitComps_joinComponents (cs : List (List Char))
    (h : ∀ c ∈ cs, c ≠ [] ∧ '/' ∉ c) :
    splitComps (joinComponents cs) = cs := by
  rcases hcs : cs with _ | ⟨c, cs'⟩
  · simp [joinComponents, splitComps_slash, splitComps_nil]
  · subst hcs
    have hc := h c (by simp)
    have hf : ((c :: cs').map (fun x => x ++ ['/'])).flatten ≠ [] :=
      flatten_slash_ne_nil (by simp)
    rw [joinComponents]
    have hlen : ('/' :: ((c :: cs').map (fun x => x ++ ['/'])).flatten).length > 1 := by
      simp only [List.length_cons, gt_iff_lt]
      have : ((c :: cs').map (fun x => x ++ ['/'])).flatten.length ≠ 0 := by
        simp [List.length_eq_zero, hf]
      omega
    simp only [hlen, if_pos]
    rw [List.dropLast_cons_of_ne_nil hf, splitComps_slash]
    exact splitComps_dropLast_flat _ h

theorem noDoubleSlash_append {c m : List Char} (hs : '/' ∉ c)
    (hm : noDoubleSlash m = true) : noDoubleSlash (c ++ m) = true := by
  induction c with
  | nil => simpa using hm
  | cons a t ih =>
    have ha : ¬ a = '/' := fun h => hs (h ▸ List.mem_cons_self _ _)
    have ht := ih (fun h => hs (List.mem_cons_of_mem _ h))
    rcases hrest : t ++ m with _ | ⟨b, rest⟩
    · rw [List.cons_append, hrest]
      simp [noDoubleSlash]
    · rw [List.cons_append, hrest, noDoubleSlash, ← hrest, ht]
      simp [ha]

theorem noDoubleSlash_dropLast {l : List Char} (h : noDoubleSlash l = true) :
    noDoubleSlash l.dropLast = true := by
  induction l with
  | nil => simp [noDoubleSlash]
  | cons a t ih =>
    rcases t with _ | ⟨b, rest⟩
    · simp [noDoubleSlash]
    · rw [noDoubleSlash, Bool.and_eq_true] at h
      rcases rest with _ | ⟨r, rs⟩
      · simp [noDoubleSlash]
      · have hd : (b :: r :: rs).dropLast = b :: (r :: rs).dropLast := by
          simp [List.dropLast]
        rw [List.dropLast_cons_of_ne_nil (by simp), hd, noDoubleSlash, ← hd]
        rw [ih h.2]
        simpa using h.1

theorem noDoubleSlash_flat (cs : List (List Char))
    (h : ∀ c ∈ cs, c ≠ [] ∧ '/' ∉ c) :
    noDoubleSlash ('/' :: (cs.map (fun c => c ++ ['/'])).flatten) = true := by
  induction cs with
  | nil => simp [noDoubleSlash]
  | cons c cs' ih =>
    have hc := h c (by simp)
    rcases hcc : c with _ | ⟨a, t⟩
    · exact absurd hcc hc.1
    · have ha : ¬ a = '/' := fun hh => hc.2 (hcc ▸ hh ▸ List.mem_cons_self _ _)
      simp only [List.map_cons, List.flatten_cons, hcc]
      rw [show ((a :: t ++ ['/'] ++ ((cs'.map (fun c => c ++ ['/'])).flatten)))
            = a :: (t ++ '/' :: (cs'.map (fun c => c ++ ['/'])).flatten) by simp]
      rw [noDoubleSlash]
      have htail : noDoubleSlash (a :: (t ++ '/' :: (cs'.map (fun c => c ++ ['/'])).flatten))
          = true := by
        have : a :: (t ++ '/' :: (cs'.map (fun c => c ++ ['/'])).flatten)
            = (a :: t) ++ '/' :: (cs'.map (fun c => c ++ ['/'])).flatten := by simp
        rw [this]
        exact noDoubleSlash_append (hcc ▸ hc.2)
          (ih (fun x hx => h x (List.mem_cons_of_mem _ hx)))
      rw [htail]
      simp [ha]

theorem joinComponents_props (cs : List (List Char))
    (h : ∀ c ∈ cs, c ≠ [] ∧ '/' ∉ c) :
    (joinComponents cs).head? = some '/' ∧
      noDoubleSlash (joinComponents cs) = true := by
  rcases hcs : cs with _ | ⟨c, cs'⟩
  · constructor <;> simp [joinComponents, noDoubleSlash]
  · subst hcs
    have hf : ((c :: cs').map (fun x => x ++ ['/'])).flatten ≠ [] :=
      flatten_slash_ne_nil (by simp)
    rw [joinComponents]
    have hlen : ('/' :: ((c :: cs').map (fun x => x ++ ['/'])).flatten).length > 1 := by
      simp only [List.length_cons, gt_iff_lt]
      have : ((c :: cs').map (fun x => x ++ ['/'])).flatten.length ≠ 0 := by
        simp [List.length_eq_zero, hf]
      omega
    simp only [hlen, if_pos]
    rw [List.dropLast_cons_of_ne_nil hf]
    constructor
    · simp
    · have := noDoubleSlash_dropLast (noDoubleSlash_flat (c :: cs') h)
      rwa [List.dropLast_cons_of_ne_nil hf] at this

/-- C3: for every absolute path `p` (beginning with `/`) whose parent
directory check succeeds, the string returned by `resolvePath p` begins
with `/`, contains no `.` component, no `..` component, and no two
consecutive `/` characters; `..` never pops above the root (the result
always keeps its leading `/`). -/
theorem C3_resolvePath_canonical (statFn : List Char → Option StatRec)
    (p r : List Char) (habs : p.head? = some '/')
    (h : resolvePath statFn p = some r) :
    r.head? = some '/' ∧ noDoubleSlash r = true ∧
      ∀ c ∈ splitComps r, c ≠ chars "." ∧ c ≠ chars ".." := by
  unfold resolvePath at h
  rcases hst : statFn (dirName p) with _ | st
  · rw [hst] at h
    exact absurd h (by simp)
  · rw [hst] at h
    dsimp only at h
    by_cases hdir : S_ISDIR st.mode
    · rw [if_pos hdir] at h
      have hr : r = joinComponents (collapseDots [] (splitComps p)) :=
        (Option.some.inj h).symm
      subst hr
      have hgood : ∀ c ∈ collapseDots [] (splitComps p), c ≠ [] ∧ '/' ∉ c := by
        intro c hmem
        rcases mem_collapseDots hmem with h' | h'
        · simp at h'
        · exact splitComps_good p c h'.1
      have hjp := joinComponents_props _ hgood
      refine ⟨hjp.1, hjp.2, ?_⟩
      intro c hmem
      rw [splitComps_joinComponents _ hgood] at hmem
      rcases mem_collapseDots hmem with h' | h'
      · simp at h'
      · exact ⟨h'.2.1, h'.2.2⟩
    · rw [if_neg hdir] at h
      exact absurd h (by simp)

/-- Witness for C3 at the concrete absolute path `/a/../b/./c` with a
filesystem whose directories all stat as mode `040755`. -/
theorem C3_witness :
    ((chars "/a/../b/./c").head? = some '/' ∧
        resolvePath (fun _ => some ⟨0o040755, 0, 0, 1, 0, 0⟩)
          (chars "/a/../b/./c") = some (chars "/b/c")) ∧
      ((chars "/b/c").head? = some '/' ∧ noDoubleSlash (chars "/b/c") = true ∧
        ∀ c ∈ splitComps (chars "/b/c"), c ≠ chars "." ∧ c ≠ chars "..") :=
  ⟨⟨by decide, by decide⟩,
    C3_resolvePath_canonical (fun _ => some ⟨0o040755, 0, 0, 1, 0, 0⟩)
      (chars "/a/../b/./c") (chars "/b/c") (by decide) (by decide)⟩

/-! ### Encode/decode round trip (claim C4) -/

theorem encodePath_false_map (s : List Char) :
    encodePath false s = s.map (fun c => if c = '\n' then '\x00' else c) := by
  induction s with
  | nil => rfl
  | cons c rest ih =>
    rw [encodePath, ih]
    by_cases hc : c = '\n' <;> simp [hc]

/-- C4: for every byte sequence `s` containing no NUL byte, applying
`encodePath` with quotes disabled and then `decodePath` yields `s` again:
`encodePath` maps each LF to NUL leaving every other byte unchanged, and
`decodePath` maps each NUL back to LF. -/
theorem C4_encode_decode_roundtrip (s : List Char) (h : '\x00' ∉ s) :
    decodePath (encodePath false s) = s ∧
      encodePath false s = s.map (fun c => if c = '\n' then '\x00' else c) := by
  refine ⟨?_, encodePath_false_map s⟩
  rw [encodePath_false_map s, decodePath, List.map_map]
  have hid : ∀ c ∈ s,
      ((fun c => if c = '\x00' then '\n' else c) ∘
        fun c => if c = '\n' then '\x00' else c) c = id c := by
    intro c hc
    simp only [Function.comp_apply, id_eq]
    by_cases h1 : c = '\n'
    · simp [h1]
    · rw [if_neg h1, if_neg (show ¬ c = '\x00' from fun h0 => h (by rw [← h0]; exact hc))]
  rw [List.map_congr_left hid, List.map_id]

/-- Witness for C4 at the concrete byte sequence `"a\nb"`. -/
theorem C4_witness :
    '\x00' ∉ chars "a\nb" ∧
      (decodePath (encodePath false (chars "a\nb")) = chars "a\nb" ∧
        encodePath false (chars "a\nb") =
          (chars "a\nb").map (fun c => if c = '\n' then '\x00' else c)) :=
  ⟨by decide, C4_encode_decode_roundtrip (chars "a\nb") (by decide)⟩

/-! ## Session data model -/

/-- ASCII `tolower`, as used by the case-insensitive compares. -/
def lowerChar (c : Char) : Char :=
  if 'A' ≤ c ∧ c ≤ 'Z' then Char.ofNat (c.toNat + 32) else c

/-- `compare (a, b) == 0` for the case-insensitive three-way comparator of
the dispatch table: equal length and equal characters up to case. -/
def ciEq (a b : List Char) : Bool := a.map lowerChar == b.map lowerChar

/-- `strncasecmp (pre, s, strlen (pre)) == 0`. -/
def ciHasStart (pre s : List Char) : Bool := ciEq pre (s.take pre.length)

def isDigitChar (c : Char) : Bool := '0' ≤ c && c ≤ '9'

/-- `std::isspace` over ASCII. -/
def isSpaceChar (c : Char) : Bool :=
  c == ' ' || c == '\t' || c == '\n' || c == '\x0b' || c == '\x0c' || c == '\r'

/-- Decimal rendering of a natural number (printf `%u`/`%llu`). -/
def natToChars (n : Nat) : List Char := Nat.toDigits 10 n

/-- printf `%02u`. -/
def pad2 (n : Nat) : List Char :=
  if n < 10 then '0' :: natToChars n else natToChars n

inductive State
  | COMMAND
  | DATA_CONNECT
  | DATA_TRANSFER
deriving DecidableEq

inductive XferDirMode
  | LIST
  | MLSD
  | MLST
  | NLST
  | STAT
deriving DecidableEq

inductive XferFileMode
  | RETR
  | STOR
  | APPE
deriving DecidableEq

/-- The member-function pointer `m_transfer`. -/
inductive TransferFn
  | listT
  | globT
  | retrieveT
  | storeT
deriving DecidableEq

/-- Result of the non-blocking `connect` made for PORT mode. -/
inductive ConnectRes
  | fail
  | inProgress
  | connected
deriving DecidableEq

/-- The mutex-guarded `FtpConfig` fields this session reads and writes. -/
structure Config where
  user : List Char
  pass : List Char
  portText : List Char
  deflateLevel : Nat
  hostname : List Char
deriving DecidableEq

/-- Results of the external collaborator calls (filesystem, sockets, zlib
initialisation, glob): each field is the result the platform call would
return for the given arguments during this step. -/
structure Env where
  statFn : List Char → Option StatRec
  lstatFn : List Char → Option StatRec
  unlinkOk : List Char → Bool
  renameOk : List Char → List Char → Bool
  mkdirOk : List Char → Bool
  rmdirOk : List Char → Bool
  openOk : List Char → List Char → Bool
  openDirOk : List Char → Bool
  seekOk : List Char → Nat → Bool
  deflateInitOk : Bool
  inflateInitOk : Bool
  socketOk : Bool
  bindOk : Bool
  listenOk : Bool
  pasvName : List Char
  pasvPort : Nat
  inetAtonOk : List Char → Bool
  connectRes : ConnectRes
  chdirOk : List Char → Bool
  globOk : List Char → Bool
  saveOk : Bool
  setPortOk : List Char → Bool
  parseDeflateLevel : List Char → Option Nat
  uptime : Nat

/-- The per-session state: protocol state machine, socket handles (tracked
as open/shared flags), the ordered reply log, authorization latches,
transfer configuration and progress, and navigation state.  Display-only
fields (rate history, window names) are omitted. -/
structure Session where
  cfg : Config
  state : State
  commandSocketOpen : Bool
  pasvSocketOpen : Bool
  dataSocketOpen : Bool
  dataSharesCommand : Bool
  replies : List (List Char)
  authorizedUser : Bool
  authorizedPass : Bool
  pasv : Bool
  port : Bool
  portAddrSet : Bool
  recv : Bool
  send : Bool
  urgent : Bool
  deflate : Bool
  zFlushed : Bool
  eof : Bool
  mlstType : Bool
  mlstSize : Bool
  mlstModify : Bool
  mlstPerm : Bool
  mlstUnixMode : Bool
  devZero : Bool
  restartPosition : Nat
  fileSize : Nat
  filePosition : Nat
  zStreamPosition : Nat
  timestamp : Int
  cwd : List Char
  lwd : List Char
  rename : List Char
  workItem : List Char
  fileOpen : Bool
  dirOpen : Bool
  zStreamActive : Bool
  transfer : Option TransferFn
  xferDirMode : XferDirMode
deriving DecidableEq

/-- `FtpSession::authorized`. -/
def authorized (s : Session) : Bool := s.authorizedUser && s.authorizedPass

/-- `sendResponse`: the reply is recorded in order; the immediate
non-blocking flush and the response-buffer bookkeeping are abstracted.
With the command socket gone the call returns without recording. -/
def sendResponse (msg : List Char) (s : Session) : Session :=
  if s.commandSocketOpen then { s with replies := s.replies ++ [msg] } else s

/-- `closeCommand`: the socket handle leaves the session (a graceful close
via the pending-close queue, or a plain reset). -/
def closeCommand (s : Session) : Session := { s with commandSocketOpen := false }

/-- `closePasv`. -/
def closePasv (s : Session) : Session := { s with pasvSocketOpen := false }

/-- `closeData`: drops the data handle and clears the direction flags. -/
def closeData (s : Session) : Session :=
  { s with dataSocketOpen := false, dataSharesCommand := false,
           recv := false, send := false }

def IDLE_TIMEOUT : Int := 60

/-- `setState` (ftpSession.cpp): the single transition primitive.  It
stamps the activity time, optionally closes the pasv/data sockets, and on
return to COMMAND resets the REST offset, progress counters and work item
and releases the file/dir/zlib handles. -/
def setState (now : Int) (st : State) (cPasv cData : Bool) (s : Session) :
    Session :=
  let s := { s with state := st, timestamp := now }
  let s := if cPasv then closePasv s else s
  let s := if cData then closeData s else s
  if st = State.COMMAND then
    { s with restartPosition := 0, fileSize := 0, filePosition := 0,
             workItem := [], devZero := false, fileOpen := false,
             dirOpen := false, zStreamActive := false }
  else s

/-- The idle sweep at the end of each reactor tick (`FtpSession::poll`):
`anyReady` is the source's `handled` flag, which is set by every ready
descriptor of the tick's whole `pollInfo` — built from ALL sessions —
before the socket-identity checks, so it is a tick-global disjunction,
not a per-session one.  A session is closed only when the entire tick
was quiet and its last activity is at least IDLE_TIMEOUT seconds old. -/
def idleSweep (now : Int) (anyReady : Bool) (s : Session) : Session :=
  if !anyReady && now - s.timestamp ≥ IDLE_TIMEOUT then
    closeData (closePasv (closeCommand s))
  else s

/-- The sweep phase of one reactor tick over all sessions: each entry
carries whether any of its OWN descriptors reported events, but the
source computes `handled` over the whole `pollInfo`, so every session
sees the same global disjunction of the flags. -/
def tickSweep (now : Int) (entries : List (Bool × Session)) : List Session :=
  entries.map fun e => idleSweep now (entries.any fun x => x.1) e.2

/-! ## Command handlers -/

/-- Replies that interpolate `strerror (errno)` or a zlib message: the text
is abstracted, only the reply code is modelled. -/
def errReply (code : String) : List Char := chars code ++ chars " error\r\n"

/-- `changeDir` (ftpSession.cpp): `..` pops one component of `cwd`
(stopping at `/`, exactly `substr` up to the last slash); otherwise the
argument is resolved against `cwd` and must stat as a directory. -/
def changeDir (env : Env) (args : List Char) (s : Session) : Session × Bool :=
  if args = chars ".." then
    ({ s with cwd := dirName s.cwd }, true)
  else
    match buildResolvedPath env.statFn s.cwd args with
    | none => (s, false)
    | some path =>
      match env.statFn path with
      | none => (s, false)
      | some st =>
        if S_ISDIR st.mode then ({ s with cwd := path }, true)
        else (s, false)

/-- `dataConnect` (ftpSession.cpp): clears the PORT arming flag, creates
the data socket and starts the non-blocking connect; `EINPROGRESS` leaves
the session waiting for POLLOUT, an immediate success sends `150` and
enters DATA_TRANSFER. -/
def dataConnect (env : Env) (now : Int) (s : Session) : Bool × Session :=
  let s := { s with port := false }
  if !env.socketOk then (false, s)
  else
    let s := { s with dataSocketOpen := true }
    match env.connectRes with
    | ConnectRes.fail => (false, s)
    | ConnectRes.inProgress => (true, s)
    | ConnectRes.connected =>
      (true, setState now State.DATA_TRANSFER true false
        (sendResponse (chars "150 Ready\r\n") s))

/-- The open/stat/seek part of `xferFile` for the resolved `path`:
`Sum.inl` continues into the arming tail, `Sum.inr` is an early return
(the source's plain `return` after a 450 reply, which does not change the
session state). -/
def xferFileOpen (env : Env) (path : List Char) (mode : XferFileMode)
    (s : Session) : Session ⊕ Session :=
  if path = chars "/devZero" then Sum.inl { s with devZero := true }
  else if mode = XferFileMode.RETR then
    match env.statFn path with
    | none => Sum.inr (sendResponse (errReply "450") s)
    | some st =>
      if !env.openOk path (chars "rb") then
        Sum.inr (sendResponse (errReply "450") s)
      else
        let s := { s with fileOpen := true, fileSize := st.size }
        if s.restartPosition ≠ 0 && !env.seekOk path s.restartPosition then
          Sum.inr (sendResponse (errReply "450") s)
        else Sum.inl { s with filePosition := s.restartPosition }
  else
    let fmode :=
      if mode = XferFileMode.APPE then chars "ab"
      else if s.restartPosition ≠ 0 then chars "r+b"
      else chars "wb"
    if !env.openOk path fmode then
      Sum.inr (sendResponse (errReply "450") s)
    else
      let s := { s with fileOpen := true }
      if s.restartPosition ≠ 0 && mode ≠ XferFileMode.APPE &&
          !env.seekOk path s.restartPosition then
        Sum.inr (sendResponse (errReply "450") s)
      else Sum.inl { s with filePosition := s.restartPosition }

/-- The arming tail of `xferFile`: requires a previously armed PORT or
PASV, enters DATA_CONNECT, starts the PORT connect when needed, and
installs the transfer function. -/
def xferFileArm (env : Env) (now : Int) (path : List Char)
    (mode : XferFileMode) (s : Session) : Session :=
  if !s.port && !s.pasv then
    setState now State.COMMAND true true
      (sendResponse (chars "503 Bad sequence of commands\r\n") s)
  else
    let s := setState now State.DATA_CONNECT false true s
    let step : Bool × Session :=
      if s.port then dataConnect env now s else (true, s)
    match step with
    | (false, s) =>
      setState now State.COMMAND true true
        (sendResponse (chars "425 Can't open data connection\r\n") s)
    | (true, s) =>
      let s :=
        if mode = XferFileMode.RETR then
          { s with recv := false, send := true,
                   transfer := some TransferFn.retrieveT }
        else
          { s with recv := true, send := false,
                   transfer := some TransferFn.storeT }
      { s with workItem := path }

/-- `xferFile` (ftpSession.cpp): RETR/STOR/APPE setup.  Buffers are
cleared (abstracted), the zlib stream is created and initialised when MODE
Z is active, the path is resolved, the file is opened and seeked to the
REST offset (`xferFileOpen`), and the data connection is armed
(`xferFileArm`). -/
def xferFile (env : Env) (now : Int) (args : List Char) (mode : XferFileMode)
    (s : Session) : Session :=
  let s := { s with zFlushed := false, eof := false,
                    zStreamActive := s.deflate }
  if s.deflate &&
      (if mode = XferFileMode.RETR then !env.deflateInitOk
       else !env.inflateInitOk) then
    setState now State.COMMAND true true (sendResponse (errReply "550") s)
  else
    match buildResolvedPath env.statFn s.cwd args with
    | none => setState now State.COMMAND true true (sendResponse (errReply "553") s)
    | some path =>
      match xferFileOpen env path mode s with
      | Sum.inr done => done
      | Sum.inl s => xferFileArm env now path mode s

/-- The post-setup tail of `xferDir`: MLST/STAT reuse the command socket
as the data socket and enter DATA_TRANSFER directly; the listing modes
need a previously armed PORT or PASV connection. -/
def xferDirTail (env : Env) (now : Int) (mode : XferDirMode) (s : Session) :
    Session :=
  if mode = XferDirMode.MLST || mode = XferDirMode.STAT then
    let s := setState now State.DATA_TRANSFER true true
      (sendResponse (chars "250-Status\r\n") s)
    { s with dataSocketOpen := s.commandSocketOpen,
             dataSharesCommand := true, send := true }
  else if !s.port && !s.pasv then
    setState now State.COMMAND true true
      (sendResponse (chars "503 Bad sequence of commands\r\n") s)
  else
    let s := setState now State.DATA_CONNECT false true s
    let s := { s with send := true }
    if s.port then
      match dataConnect env now s with
      | (false, s) =>
        setState now State.COMMAND true true
          (sendResponse (chars "425 Can't open data connection\r\n") s)
      | (true, s) => s
    else s

/-- The with-argument body of `xferDir` once `path` resolved and statted:
MLST formats the single entry inline, directories are opened for listing
(MLSD additionally emits the `cdir` entry, part of the listing model),
MLSD of a non-directory is refused, and single files are listed by their
basename (full path for NLST). -/
def xferDirWithStat (env : Env) (now : Int) (mode : XferDirMode)
    (path : List Char) (st : StatRec) (s : Session) : Session :=
  if mode = XferDirMode.MLST then
    xferDirTail env now mode { s with workItem := path }
  else if S_ISDIR st.mode then
    if !env.openDirOk path then
      setState now State.COMMAND true true (sendResponse (errReply "550") s)
    else
      let s := { s with lwd := path, dirOpen := true }
      xferDirTail env now mode { s with workItem := s.lwd }
  else if mode = XferDirMode.MLSD then
    setState now State.COMMAND true true (sendResponse (errReply "501") s)
  else
    xferDirTail env now mode { s with workItem := path }

/-- Resolution step of `xferDir` for a non-empty argument: `none` exactly
on the two failures (`buildResolvedPath`, `tzStat`) that the broken-client
workaround may retry. -/
def xferDirArg (env : Env) (now : Int) (args : List Char)
    (mode : XferDirMode) (s : Session) : Option Session :=
  match buildResolvedPath env.statFn s.cwd args with
  | none => none
  | some path =>
    match env.statFn path with
    | none => none
    | some st => some (xferDirWithStat env now mode path st s)

/-- The dispatch on the argument in `xferDir`, after the front flag setup:
resolution with the broken-client retry for a non-empty argument, else the
MLST-of-cwd and open-cwd listing branches. -/
def xferDirBody (env : Env) (now : Int) (args : List Char)
    (mode : XferDirMode) (workaround : Bool) (s : Session) : Session :=
  if args ≠ [] then
    let needWorkaround := workaround && args.head? == some '-' &&
      (args[1]? == some 'a' || args[1]? == some 'l') &&
      (args[2]? == none || args[2]? == some ' ')
    match xferDirArg env now args mode s with
    | some out => out
    | none =>
      if needWorkaround then
        let stripped := args.drop (if args[2]? == some ' ' then 3 else 2)
        match xferDirArg env now stripped mode s with
        | some out => out
        | none =>
          setState now State.COMMAND true true
            (sendResponse (errReply "550") s)
      else
        setState now State.COMMAND true true
          (sendResponse (errReply "550") s)
  else if mode = XferDirMode.MLST then
    xferDirTail env now mode { s with workItem := s.cwd }
  else if !env.openDirOk s.cwd then
    setState now State.COMMAND true true (sendResponse (errReply "550") s)
  else
    let s := { s with lwd := s.cwd, dirOpen := true }
    xferDirTail env now mode { s with workItem := s.lwd }

/-- `xferDir` (ftpSession.cpp): sets up a LIST/MLSD/MLST/NLST/STAT
transfer.  The broken-client `LIST -a`/`-l` workaround re-runs the body
once with the stripped argument (the re-run repeats the idempotent flag
setup of the front).  `fillDirent`'s byte output is modelled separately in
the listing pipeline; its buffer-capacity retries always succeed here
because buffer capacity is abstracted as unbounded. -/
def xferDir (env : Env) (now : Int) (args : List Char) (mode : XferDirMode)
    (workaround : Bool) (s : Session) : Session :=
  let s := { s with xferDirMode := mode, recv := false, send := true,
                    zFlushed := false, eof := false, filePosition := 0,
                    zStreamPosition := 0, zStreamActive := s.deflate }
  if s.deflate && !env.deflateInitOk then
    setState now State.COMMAND true true (sendResponse (errReply "550") s)
  else
    xferDirBody env now args mode workaround
      { s with transfer := some TransferFn.listT }

/-- `FtpSession::ABOR`. -/
def ABOR (_env : Env) (now : Int) (_args : List Char) (s : Session) : Session :=
  if s.state = State.COMMAND then
    sendResponse (chars "225 No transfer to abort\r\n") s
  else
    setState now State.COMMAND true true
      (sendResponse (chars "425 Transfer aborted\r\n")
        (sendResponse (chars "225 Aborted\r\n") s))

/-- `FtpSession::ALLO`. -/
def ALLO (_env : Env) (now : Int) (_args : List Char) (s : Session) : Session :=
  setState now State.COMMAND false false
    (sendResponse (chars "202 Superfluous command\r\n") s)

/-- `FtpSession::APPE`. -/
def APPE (env : Env) (now : Int) (args : List Char) (s : Session) : Session :=
  if !authorized s then
    sendResponse (chars "530 Not logged in\r\n")
      (setState now State.COMMAND false false s)
  else xferFile env now args XferFileMode.APPE s

/-- `FtpSession::CDUP` (also XCUP). -/
def CDUP (env : Env) (now : Int) (_args : List Char) (s : Session) : Session :=
  let s := setState now State.COMMAND false false s
  if !authorized s then sendResponse (chars "530 Not logged in\r\n") s
  else
    match changeDir env (chars "..") s with
    | (s, true) => sendResponse (chars "200 OK\r\n") s
    | (s, false) => sendResponse (errReply "550") s

/-- `FtpSession::CWD` (also XCWD). -/
def CWD (env : Env) (now : Int) (args : List Char) (s : Session) : Session :=
  let s := setState now State.COMMAND false false s
  if !authorized s then sendResponse (chars "530 Not logged in\r\n") s
  else
    match changeDir env args s with
    | (s, true) => sendResponse (chars "200 OK\r\n") s
    | (s, false) => sendResponse (errReply "550") s

/-- `FtpSession::DELE`. -/
def DELE (env : Env) (now : Int) (args : List Char) (s : Session) : Session :=
  let s := setState now State.COMMAND false false s
  if !authorized s then sendResponse (chars "530 Not logged in\r\n") s
  else
    match buildResolvedPath env.statFn s.cwd args with
    | none => sendResponse (errReply "553") s
    | some path =>
      if env.unlinkOk path then sendResponse (chars "250 OK\r\n") s
      else sendResponse (errReply "550") s

def star (b : Bool) : List Char := if b then chars "*" else []

/-- `FtpSession::FEAT`. -/
def FEAT (_env : Env) (now : Int) (_args : List Char) (s : Session) : Session :=
  let s := setState now State.COMMAND false false s
  sendResponse (chars "211-\r\n MDTM\r\n MLST Type" ++ star s.mlstType ++
    chars ";Size" ++ star s.mlstSize ++ chars ";Modify" ++ star s.mlstModify ++
    chars ";Perm" ++ star s.mlstPerm ++ chars ";UNIX.mode" ++ star s.mlstUnixMode ++
    chars ";\r\n MODE Z\r\n PASV\r\n SIZE\r\n TVFS\r\n UTF8\r\n\r\n211 End\r\n") s

/-- `FtpSession::HELP`. -/
def HELP (_env : Env) (now : Int) (_args : List Char) (s : Session) : Session :=
  let s := setState now State.COMMAND false false s
  sendResponse (chars ("214-\r\nThe following commands are recognized\r\n" ++
    " ABOR ALLO APPE CDUP CWD DELE FEAT HELP LIST MDTM MKD MLSD MLST MODE\r\n" ++
    " NLST NOOP OPTS PASS PASV PORT PWD QUIT REST RETR RMD RNFR RNTO SITE\r\n" ++
    " SIZE STAT STOR STOU STRU SYST TYPE USER XCUP XCWD XMKD XPWD XRMD\r\n" ++
    "214 End\r\n")) s

/-- `FtpSession::LIST`. -/
def LIST (env : Env) (now : Int) (args : List Char) (s : Session) : Session :=
  if !authorized s then
    sendResponse (chars "530 Not logged in\r\n")
      (setState now State.COMMAND false false s)
  else xferDir env now args XferDirMode.LIST true s

/-- `FtpSession::MDTM`. -/
def MDTM (_env : Env) (now : Int) (_args : List Char) (s : Session) : Session :=
  let s := setState now State.COMMAND false false s
  if !authorized s then sendResponse (chars "530 Not logged in\r\n") s
  else sendResponse (chars "502 Command not implemented\r\n") s

/-- `FtpSession::MKD` (also XMKD). -/
def MKD (env : Env) (now : Int) (args : List Char) (s : Session) : Session :=
  let s := setState now State.COMMAND false false s
  if !authorized s then sendResponse (chars "530 Not logged in\r\n") s
  else
    match buildResolvedPath env.statFn s.cwd args with
    | none => sendResponse (errReply "553") s
    | some path =>
      if env.mkdirOk path then sendResponse (chars "250 OK\r\n") s
      else sendResponse (errReply "550") s

/-- `FtpSession::MLSD`. -/
def MLSD (env : Env) (now : Int) (args : List Char) (s : Session) : Session :=
  if !authorized s then
    sendResponse (chars "530 Not logged in\r\n")
      (setState now State.COMMAND false false s)
  else xferDir env now args XferDirMode.MLSD false s

/-- `FtpSession::MLST`. -/
def MLST (env : Env) (now : Int) (args : List Char) (s : Session) : Session :=
  if !authorized s then
    sendResponse (chars "530 Not logged in\r\n")
      (setState now State.COMMAND false false s)
  else xferDir env now args XferDirMode.MLST false s

/-- `FtpSession::MODE`. -/
def MODE (_env : Env) (now : Int) (args : List Char) (s : Session) : Session :=
  let s := setState now State.COMMAND false false s
  if ciEq args (chars "S") then
    sendResponse (chars "200 OK\r\n") { s with deflate := false }
  else if ciEq args (chars "Z") then
    sendResponse (chars "200 OK\r\n") { s with deflate := true }
  else sendResponse (chars "504 Unavailable\r\n") s

/-- `FtpSession::NLST`: a `*` in the argument switches to the glob
transfer; otherwise a plain NLST directory listing. -/
def NLST (env : Env) (now : Int) (args : List Char) (s : Session) : Session :=
  if !authorized s then
    sendResponse (chars "530 Not logged in\r\n")
      (setState now State.COMMAND false false s)
  else if args.contains '*' then
    if !env.chdirOk s.cwd || !env.globOk args then
      setState now State.COMMAND false false (sendResponse (errReply "501") s)
    else
      let s := { s with transfer := some TransferFn.globT }
      if !s.port && !s.pasv then
        setState now State.COMMAND true true
          (sendResponse (chars "503 Bad sequence of commands\r\n") s)
      else
        let s := setState now State.DATA_CONNECT false true s
        let s := { s with send := true }
        if s.port then
          match dataConnect env now s with
          | (false, s) =>
            setState now State.COMMAND true true
              (sendResponse (chars "425 Can't open data connection\r\n") s)
          | (true, s) => s
        else s
  else xferDir env now args XferDirMode.NLST false s

/-- `FtpSession::NOOP` (no state transition). -/
def NOOP (_env : Env) (_now : Int) (_args : List Char) (s : Session) : Session :=
  sendResponse (chars "200 OK\r\n") s

/-- Word-splitting accumulator used by the OPTS `MODE Z` parser
(`nextWord`). -/
def wordsAux (cur : List Char) : List Char → List (List Char)
  | [] => if cur = [] then [] else [cur.reverse]
  | c :: rest =>
    if isSpaceChar c then (if cur = [] then [] else [cur.reverse]) ++ wordsAux [] rest
    else wordsAux (c :: cur) rest

def splitWords (l : List Char) : List (List Char) := wordsAux [] l

/-- The fact-list loop of `OPTS MLST`: each iteration tests the known fact
names at the cursor and then jumps past the next `;`.  Each jump consumes
at least one character, so the list length is enough fuel. -/
def optsMLSTGo (fuel : Nat) (s : Session) (p : List Char) : Session :=
  match p with
  | [] => s
  | p₀ :: prest =>
    match fuel with
    | 0 => s
    | fuel + 1 =>
      let p := p₀ :: prest
      let s :=
        if ciHasStart (chars "Type;") p then { s with mlstType := true }
        else if ciHasStart (chars "Size;") p then { s with mlstSize := true }
        else if ciHasStart (chars "Modify;") p then { s with mlstModify := true }
        else if ciHasStart (chars "Perm;") p then { s with mlstPerm := true }
        else if ciHasStart (chars "UNIX.mode;") p then { s with mlstUnixMode := true }
        else s
      match p.dropWhile (fun c => c != ';') with
      | [] => s
      | _ :: rest => optsMLSTGo fuel s rest

/-- The `MODE Z` option loop of `OPTS`: words are consumed pairwise;
`LEVEL` must be followed by a single digit (stored into the config at
once); any other word is an error.  `level` is the last accepted level.
Each iteration consumes at least one word, so the word count is enough
fuel. -/
def optsModeZGo (fuel : Nat) (s : Session) (level : Option Nat)
    (ws : List (List Char)) : Session :=
  match ws with
  | [] =>
    (match level with
    | none => sendResponse (errReply "501") s
    | some lv =>
      sendResponse (chars "200 MODE Z LEVEL set to " ++ natToChars lv ++
        chars "\r\n") s)
  | w :: rest =>
    match fuel with
    | 0 => s
    | fuel + 1 =>
      if w.length = 5 && ciHasStart (chars "LEVEL") w then
        match rest with
        | [] => sendResponse (errReply "501") s
        | v :: rest' =>
          match v with
          | [d] =>
            if isDigitChar d then
              let lv := d.toNat - 48
              optsModeZGo fuel
                { s with cfg := { s.cfg with deflateLevel := lv } }
                (some lv) rest'
            else sendResponse (errReply "501") s
          | _ => sendResponse (errReply "501") s
      else sendResponse (errReply "501") s

/-- `FtpSession::OPTS`. -/
def OPTS (_env : Env) (now : Int) (args : List Char) (s : Session) : Session :=
  let s := setState now State.COMMAND false false s
  if ciEq args (chars "UTF8") || ciEq args (chars "UTF8 ON") ||
      ciEq args (chars "UTF8 NLST") then
    sendResponse (chars "200 OK\r\n") s
  else if ciHasStart (chars "MLST ") args then
    let s := { s with mlstType := false, mlstSize := false, mlstModify := false,
                      mlstPerm := false, mlstUnixMode := false }
    let p := args.drop 5
    let s := optsMLSTGo p.length s p
    sendResponse (chars "200 MLST OPTS" ++
      (if s.mlstType || s.mlstSize || s.mlstModify || s.mlstPerm || s.mlstUnixMode
       then chars " " else []) ++
      (if s.mlstType then chars "Type;" else []) ++
      (if s.mlstSize then chars "Size;" else []) ++
      (if s.mlstModify then chars "Modify;" else []) ++
      (if s.mlstPerm then chars "Perm;" else []) ++
      (if s.mlstUnixMode then chars "UNIX.mode;" else []) ++ chars "\r\n") s
  else if ciHasStart (chars "MODE Z ") args then
    optsModeZGo (splitWords (args.drop 7)).length s none (splitWords (args.drop 7))
  else sendResponse (errReply "504") s

/-- `FtpSession::PASS`. -/
def PASS (_env : Env) (now : Int) (args : List Char) (s : Session) : Session :=
  let s := setState now State.COMMAND false false s
  let s := { s with authorizedPass := false }
  if s.cfg.user ≠ [] && !s.authorizedUser then
    sendResponse (chars "430 User not authorized\r\n") s
  else if s.cfg.pass = [] || s.cfg.pass = args then
    sendResponse (chars "230 OK\r\n") { s with authorizedPass := true }
  else sendResponse (chars "430 Invalid password\r\n") s

/-- `FtpSession::PASV`: resets transfer state, opens and binds the
listener, and reports the passive address. -/
def PASV (env : Env) (now : Int) (_args : List Char) (s : Session) : Session :=
  if !authorized s then
    sendResponse (chars "530 Not logged in\r\n")
      (setState now State.COMMAND false false s)
  else
    let s := setState now State.COMMAND true true s
    let s := { s with pasv := false, port := false }
    if !env.socketOk then
      sendResponse (chars "451 Failed to create listening socket\r\n") s
    else
      let s := { s with pasvSocketOpen := true }
      if !env.bindOk then
        sendResponse (chars "451 Failed to bind address\r\n") (closePasv s)
      else if !env.listenOk then
        sendResponse (chars "451 Failed to listen on socket\r\n") (closePasv s)
      else
        let s := { s with pasv := true }
        sendResponse (chars "227 Entering Passive Mode (" ++ env.pasvName ++
          chars "," ++ natToChars ((env.pasvPort % 65536) / 256) ++ chars "," ++
          natToChars (env.pasvPort % 256) ++ chars ").\r\n") s

/-- Comma count of the PORT argument. -/
def commaCount (l : List Char) : Nat := (l.filter (fun c => c == ',')).length

/-- The comma-rewriting pass of `PORT`: characters before the fourth comma
(commas becoming dots) form the address text; `none` when no fourth comma
exists. -/
def splitAtComma4 : Nat → List Char → List Char × Option (List Char)
  | _, [] => ([], none)
  | k, c :: rest =>
    if c = ',' then
      if k = 3 then ([], some rest)
      else
        match splitAtComma4 (k + 1) rest with
        | (a, b) => ('.' :: a, b)
    else
      match splitAtComma4 k rest with
      | (a, b) => (c :: a, b)

/-- Commas after the fourth also become dots (the port text). -/
def dotify (l : List Char) : List Char :=
  l.map (fun c => if c = ',' then '.' else c)

/-- Two's-complement wrap of the 32-bit `int val` accumulator (signed
overflow in the C source, modelled as wraparound). -/
def wrap32 (n : Int) : Int :=
  let m := n % 4294967296
  if m ≥ 2147483648 then m - 4294967296 else m

/-- The port-number parse loop of `PORT`: digits accumulate into the
32-bit `val`; a dot (not at the start, with `val ≤ 255`) shifts `val` into
the 16-bit `port`.  Returns `none` on rejection. -/
def portLoop : List Char → Bool → Int → Nat → Option (Int × Nat)
  | [], _, val, port => some (val, port)
  | c :: rest, first, val, port =>
    if isDigitChar c then
      portLoop rest false (wrap32 (val * 10 + (c.toNat - 48))) port
    else if first || c ≠ '.' || val > 255 then none
    else
      portLoop rest false 0
        (((port * 256) % 65536 + ((val % 65536).toNat % 65536)) % 65536)

/-- `FtpSession::PORT`: requires exactly five commas, a parsable dotted
address, and port fields of at most 255. -/
def PORT (env : Env) (now : Int) (args : List Char) (s : Session) : Session :=
  if !authorized s then
    sendResponse (chars "530 Not logged in\r\n")
      (setState now State.COMMAND false false s)
  else
    let s := setState now State.COMMAND true true s
    let s := { s with pasv := false, port := false }
    let commas := commaCount args
    if commas ≠ 5 then sendResponse (errReply "501") s
    else
      let (addrText, portRest) := splitAtComma4 0 args
      let portText := dotify (portRest.getD [])
      if !env.inetAtonOk addrText then sendResponse (errReply "501") s
      else
        match portLoop portText true 0 0 with
        | none => sendResponse (errReply "501") s
        | some (val, port) =>
          if val > 255 || port > 255 then sendResponse (errReply "501") s
          else
            sendResponse (chars "200 OK\r\n")
              { s with portAddrSet := true, port := true }

/-- `FtpSession::PWD` (also XPWD; no state transition). -/
def PWD (_env : Env) (_now : Int) (_args : List Char) (s : Session) : Session :=
  if !authorized s then sendResponse (chars "530 Not logged in\r\n") s
  else
    sendResponse (chars "257 \"" ++ encodePath true s.cwd ++ chars "\"\r\n") s

/-- `FtpSession::QUIT`. -/
def QUIT (_env : Env) (_now : Int) (_args : List Char) (s : Session) : Session :=
  closeCommand (sendResponse (chars "221 Disconnecting\r\n") s)

def UINT64MAX : Nat := 18446744073709551615

/-- The offset parse loop of `REST`: decimal digits with the source's
64-bit overflow guards (`UINT64_MAX / 10 < pos` before the multiply and
`UINT64_MAX - digit < pos` before the add). -/
def restParse : List Char → Nat → Option Nat
  | [], pos => some pos
  | c :: rest, pos =>
    if !isDigitChar c || UINT64MAX / 10 < pos then none
    else
      let pos := pos * 10
      if UINT64MAX - (c.toNat - 48) < pos then none
      else restParse rest (pos + (c.toNat - 48))

/-- `FtpSession::REST`. -/
def REST (_env : Env) (now : Int) (args : List Char) (s : Session) : Session :=
  let s := setState now State.COMMAND false false s
  if !authorized s then sendResponse (chars "530 Not logged in\r\n") s
  else
    match restParse args 0 with
    | none => sendResponse (errReply "504") s
    | some pos =>
      sendResponse (chars "350 OK\r\n") { s with restartPosition := pos }

/-- `FtpSession::RETR`. -/
def RETR (env : Env) (now : Int) (args : List Char) (s : Session) : Session :=
  if !authorized s then
    sendResponse (chars "530 Not logged in\r\n")
      (setState now State.COMMAND false false s)
  else xferFile env now args XferFileMode.RETR s

/-- `FtpSession::RMD` (also XRMD). -/
def RMD (env : Env) (now : Int) (args : List Char) (s : Session) : Session :=
  let s := setState now State.COMMAND false false s
  if !authorized s then sendResponse (chars "530 Not logged in\r\n") s
  else
    match buildResolvedPath env.statFn s.cwd args with
    | none => sendResponse (errReply "553") s
    | some path =>
      if env.rmdirOk path then sendResponse (chars "250 OK\r\n") s
      else sendResponse (errReply "550") s

/-- `FtpSession::RNFR`: resolves and lstats the source, then stages it in
`rename` for the immediately following RNTO. -/
def RNFR (env : Env) (now : Int) (args : List Char) (s : Session) : Session :=
  let s := setState now State.COMMAND false false s
  if !authorized s then sendResponse (chars "530 Not logged in\r\n") s
  else
    match buildResolvedPath env.statFn s.cwd args with
    | none => sendResponse (errReply "553") s
    | some path =>
      match env.lstatFn path with
      | none => sendResponse (errReply "450") s
      | some _ => sendResponse (chars "350 OK\r\n") { s with rename := path }

/-- `FtpSession::RNTO`: refuses with 503 unless the previous command was a
successful RNFR (`rename` non-empty); always clears the staging field. -/
def RNTO (env : Env) (now : Int) (args : List Char) (s : Session) : Session :=
  let s := setState now State.COMMAND false false s
  if !authorized s then sendResponse (chars "530 Not logged in\r\n") s
  else if s.rename = [] then
    sendResponse (chars "503 Bad sequence of commands\r\n") s
  else
    match buildResolvedPath env.statFn s.cwd args with
    | none => sendResponse (errReply "554") { s with rename := [] }
    | some path =>
      if env.renameOk s.rename path then
        sendResponse (chars "250 OK\r\n") { s with rename := [] }
      else sendResponse (errReply "550") { s with rename := [] }

/-- `FtpSession::SITE` (PC build: HELP, USER, PASS, PORT, DEFLATE, HOST,
SAVE).  The HOST branch falls through to the final `550 Invalid command`
reply because it does not return. -/
def SITE (env : Env) (now : Int) (args : List Char) (s : Session) : Session :=
  let s := setState now State.COMMAND false false s
  let cmd := args.takeWhile (fun c => c != ' ')
  let arg :=
    match args.dropWhile (fun c => c != ' ') with
    | [] => []
    | _ :: t => t
  if ciEq cmd (chars "HELP") then
    sendResponse (chars ("211-\r\n Show this help: SITE HELP\r\n" ++
      " Set username: SITE USER <NAME>\r\n Set password: SITE PASS <PASS>\r\n" ++
      " Set port: SITE PORT <PORT>\r\n Set deflate level: SITE DEFLATE <LEVEL>\r\n" ++
      " Set hostname: SITE HOST <HOSTNAME>\r\n Save config: SITE SAVE\r\n" ++
      "211 End\r\n")) s
  else if !authorized s then sendResponse (chars "530 Not logged in\r\n") s
  else if ciEq cmd (chars "USER") then
    sendResponse (chars "200 OK\r\n") { s with cfg := { s.cfg with user := arg } }
  else if ciEq cmd (chars "PASS") then
    sendResponse (chars "200 OK\r\n") { s with cfg := { s.cfg with pass := arg } }
  else if ciEq cmd (chars "PORT") then
    if !env.setPortOk arg then sendResponse (errReply "550") s
    else sendResponse (chars "200 OK\r\n") { s with cfg := { s.cfg with portText := arg } }
  else if ciEq cmd (chars "DEFLATE") then
    match env.parseDeflateLevel arg with
    | none => sendResponse (errReply "550") s
    | some lv =>
      sendResponse (chars "200 OK\r\n") { s with cfg := { s.cfg with deflateLevel := lv } }
  else if ciEq cmd (chars "HOST") then
    sendResponse (chars "550 Invalid command\r\n")
      { s with cfg := { s.cfg with hostname := arg } }
  else if ciEq cmd (chars "SAVE") then
    if !env.saveOk then sendResponse (errReply "550") s
    else sendResponse (chars "200 OK\r\n") s
  else sendResponse (chars "550 Invalid command\r\n") s

/-- `FtpSession::SIZE`: `213 <size>` for regular files only. -/
def SIZE (env : Env) (now : Int) (args : List Char) (s : Session) : Session :=
  let s := setState now State.COMMAND false false s
  if !authorized s then sendResponse (chars "530 Not logged in\r\n") s
  else
    match buildResolvedPath env.statFn s.cwd args with
    | none => sendResponse (errReply "553") s
    | some path =>
      match env.statFn path with
      | none => sendResponse (errReply "550") s
      | some st =>
        if !S_ISREG st.mode then sendResponse (chars "550 Not a file\r\n") s
        else sendResponse (chars "213 " ++ natToChars st.size ++ chars "\r\n") s

/-- `FtpSession::STAT`: live progress during a transfer, uptime with no
argument, an inline listing over the command channel otherwise. -/
def STAT (env : Env) (now : Int) (args : List Char) (s : Session) : Session :=
  if s.state = State.DATA_CONNECT then
    sendResponse (chars ("211-FTP server status\r\n" ++
      " Waiting for data connection\r\n211 End\r\n")) s
  else if s.state = State.DATA_TRANSFER then
    sendResponse (chars "211-FTP server status\r\n Transferred " ++
      natToChars s.filePosition ++ chars " bytes\r\n211 End\r\n") s
  else if args = [] then
    sendResponse (chars "211-FTP server status\r\n Uptime: " ++
      pad2 (env.uptime / 3600) ++ chars ":" ++ pad2 ((env.uptime / 60) % 60) ++
      chars ":" ++ pad2 (env.uptime % 60) ++ chars "\r\n211 End\r\n") s
  else if !authorized s then
    sendResponse (chars "530 Not logged in\r\n")
      (setState now State.COMMAND false false s)
  else xferDir env now args XferDirMode.STAT false s

/-- `FtpSession::STOR`. -/
def STOR (env : Env) (now : Int) (args : List Char) (s : Session) : Session :=
  if !authorized s then
    sendResponse (chars "530 Not logged in\r\n")
      (setState now State.COMMAND false false s)
  else xferFile env now args XferFileMode.STOR s

/-- `FtpSession::STOU`. -/
def STOU (_env : Env) (now : Int) (_args : List Char) (s : Session) : Session :=
  sendResponse (chars "502 Command not implemented\r\n")
    (setState now State.COMMAND false false s)

/-- `FtpSession::STRU`: only `F` accepted. -/
def STRU (_env : Env) (now : Int) (args : List Char) (s : Session) : Session :=
  let s := setState now State.COMMAND false false s
  if ciEq args (chars "F") then sendResponse (chars "200 OK\r\n") s
  else sendResponse (chars "504 Unavailable\r\n") s

/-- `FtpSession::SYST`. -/
def SYST (_env : Env) (now : Int) (_args : List Char) (s : Session) : Session :=
  sendResponse (chars "215 UNIX Type: L8\r\n")
    (setState now State.COMMAND false false s)

/-- `FtpSession::TYPE`: always accepted (binary only). -/
def TYPE (_env : Env) (now : Int) (_args : List Char) (s : Session) : Session :=
  sendResponse (chars "200 OK\r\n") (setState now State.COMMAND false false s)

/-- `FtpSession::USER`. -/
def USER (_env : Env) (now : Int) (args : List Char) (s : Session) : Session :=
  let s := setState now State.COMMAND false false s
  let s := { s with authorizedUser := false }
  if s.cfg.user = [] || s.cfg.user = args then
    let s := { s with authorizedUser := true }
    if s.cfg.pass = [] then sendResponse (chars "230 OK\r\n") s
    else sendResponse (chars "331 Need password\r\n") s
  else sendResponse (chars "430 Invalid user\r\n") s

/-! ## Dispatch -/

/-- Tags for the handler table entries. -/
inductive Handler
  | hABOR | hALLO | hAPPE | hCDUP | hCWD | hDELE | hFEAT | hHELP | hLIST
  | hMDTM | hMKD | hMLSD | hMLST | hMODE | hNLST | hNOOP | hOPTS | hPASS
  | hPASV | hPORT | hPWD | hQUIT | hREST | hRETR | hRMD | hRNFR | hRNTO
  | hSITE | hSIZE | hSTAT | hSTOR | hSTOU | hSTRU | hSYST | hTYPE | hUSER
deriving DecidableEq

/-- The sorted dispatch table (`FtpSession::handlers`); the X-aliases map
to the same member functions as in the source. -/
def handlers : List (List Char × Handler) :=
  [ (chars "ABOR", Handler.hABOR), (chars "ALLO", Handler.hALLO),
    (chars "APPE", Handler.hAPPE), (chars "CDUP", Handler.hCDUP),
    (chars "CWD", Handler.hCWD), (chars "DELE", Handler.hDELE),
    (chars "FEAT", Handler.hFEAT), (chars "HELP", Handler.hHELP),
    (chars "LIST", Handler.hLIST), (chars "MDTM", Handler.hMDTM),
    (chars "MKD", Handler.hMKD), (chars "MLSD", Handler.hMLSD),
    (chars "MLST", Handler.hMLST), (chars "MODE", Handler.hMODE),
    (chars "NLST", Handler.hNLST), (chars "NOOP", Handler.hNOOP),
    (chars "OPTS", Handler.hOPTS), (chars "PASS", Handler.hPASS),
    (chars "PASV", Handler.hPASV), (chars "PORT", Handler.hPORT),
    (chars "PWD", Handler.hPWD), (chars "QUIT", Handler.hQUIT),
    (chars "REST", Handler.hREST), (chars "RETR", Handler.hRETR),
    (chars "RMD", Handler.hRMD), (chars "RNFR", Handler.hRNFR),
    (chars "RNTO", Handler.hRNTO), (chars "SITE", Handler.hSITE),
    (chars "SIZE", Handler.hSIZE), (chars "STAT", Handler.hSTAT),
    (chars "STOR", Handler.hSTOR), (chars "STOU", Handler.hSTOU),
    (chars "STRU", Handler.hSTRU), (chars "SYST", Handler.hSYST),
    (chars "TYPE", Handler.hTYPE), (chars "USER", Handler.hUSER),
    (chars "XCUP", Handler.hCDUP), (chars "XCWD", Handler.hCWD),
    (chars "XMKD", Handler.hMKD), (chars "XPWD", Handler.hPWD),
    (chars "XRMD", Handler.hRMD) ]

/-- The sorted binary search with the case-insensitive three-way compare,
over a sorted duplicate-free table, finds exactly the entry whose name is
case-insensitively equal to the verb. -/
def lookupHandler (verb : List Char) : Option Handler :=
  (handlers.find? (fun e => ciEq e.1 verb)).map (fun e => e.2)

def applyHandler (h : Handler) (env : Env) (now : Int) (args : List Char)
    (s : Session) : Session :=
  match h with
  | Handler.hABOR => ABOR env now args s
  | Handler.hALLO => ALLO env now args s
  | Handler.hAPPE => APPE env now args s
  | Handler.hCDUP => CDUP env now args s
  | Handler.hCWD => CWD env now args s
  | Handler.hDELE => DELE env now args s
  | Handler.hFEAT => FEAT env now args s
  | Handler.hHELP => HELP env now args s
  | Handler.hLIST => LIST env now args s
  | Handler.hMDTM => MDTM env now args s
  | Handler.hMKD => MKD env now args s
  | Handler.hMLSD => MLSD env now args s
  | Handler.hMLST => MLST env now args s
  | Handler.hMODE => MODE env now args s
  | Handler.hNLST => NLST env now args s
  | Handler.hNOOP => NOOP env now args s
  | Handler.hOPTS => OPTS env now args s
  | Handler.hPASS => PASS env now args s
  | Handler.hPASV => PASV env now args s
  | Handler.hPORT => PORT env now args s
  | Handler.hPWD => PWD env now args s
  | Handler.hQUIT => QUIT env now args s
  | Handler.hREST => REST env now args s
  | Handler.hRETR => RETR env now args s
  | Handler.hRMD => RMD env now args s
  | Handler.hRNFR => RNFR env now args s
  | Handler.hRNTO => RNTO env now args s
  | Handler.hSITE => SITE env now args s
  | Handler.hSIZE => SIZE env now args s
  | Handler.hSTAT => STAT env now args s
  | Handler.hSTOR => STOR env now args s
  | Handler.hSTOU => STOU env now args s
  | Handler.hSTRU => STRU env now args s
  | Handler.hSYST => SYST env now args s
  | Handler.hTYPE => TYPE env now args s
  | Handler.hUSER => USER env now args s

/-- The per-command dispatch step of `readCommand` (ftpSession.cpp): verb
lookup, `502` for unknown verbs, the during-transfer whitelist aborting on
anything outside it, and the rename-staging clear before every
COMMAND-state dispatch other than RNTO. -/
def execCmd (env : Env) (now : Int) (verb args : List Char) (s : Session) :
    Session :=
  match lookupHandler verb with
  | none =>
    sendResponse (chars "502 Invalid command \"" ++ encodePath false verb ++
      (if args ≠ [] then ' ' :: encodePath false args else []) ++
      chars "\"\r\n") s
  | some h =>
    if s.state ≠ State.COMMAND then
      if !ciEq verb (chars "ABOR") && !ciEq verb (chars "NOOP") &&
          !ciEq verb (chars "PWD") && !ciEq verb (chars "QUIT") &&
          !ciEq verb (chars "STAT") && !ciEq verb (chars "XPWD") then
        closeCommand (setState now State.COMMAND true true
          (sendResponse (chars "503 Invalid command during transfer\r\n") s))
      else applyHandler h env now args s
    else
      let s := if !ciEq verb (chars "RNTO") then { s with rename := [] } else s
      applyHandler h env now args s

/-- Run a sequence of already-split (verb, argument) commands. -/
def runCmds (env : Env) (now : Int) (s : Session) :
    List (List Char × List Char) → Session
  | [] => s
  | (v, a) :: rest => runCmds env now (execCmd env now v a s) rest

/-- The `FtpSession` constructor: fresh buffers, all flags cleared, the
authorization latches pre-granted exactly when the configured user or
password is empty, MLST facts default-on except UNIX.mode, `220` greeting
sent.  (`m_cwd` starts at `"/"`, from the class definition in the
header.) -/
def initSession (cfg : Config) (now : Int) : Session :=
  sendResponse (chars "220 Hello!\r\n")
    { cfg := cfg
      state := State.COMMAND
      commandSocketOpen := true
      pasvSocketOpen := false
      dataSocketOpen := false
      dataSharesCommand := false
      replies := []
      authorizedUser := cfg.user = []
      authorizedPass := cfg.pass = []
      pasv := false
      port := false
      portAddrSet := false
      recv := false
      send := false
      urgent := false
      deflate := false
      zFlushed := false
      eof := false
      mlstType := true
      mlstSize := true
      mlstModify := true
      mlstPerm := true
      mlstUnixMode := false
      devZero := false
      restartPosition := 0
      fileSize := 0
      filePosition := 0
      zStreamPosition := 0
      timestamp := now
      cwd := chars "/"
      lwd := []
      rename := []
      workItem := []
      fileOpen := false
      dirOpen := false
      zStreamActive := false
      transfer := none
      xferDirMode := XferDirMode.LIST }

/-! ## Projection lemmas for the session primitives -/

@[simp] theorem sendResponse_authorizedUser (m : List Char) (s : Session) :
    (sendResponse m s).authorizedUser = s.authorizedUser := by
  rw [sendResponse]; split <;> rfl

@[simp] theorem sendResponse_authorizedPass (m : List Char) (s : Session) :
    (sendResponse m s).authorizedPass = s.authorizedPass := by
  rw [sendResponse]; split <;> rfl

@[simp] theorem sendResponse_rename (m : List Char) (s : Session) :
    (sendResponse m s).rename = s.rename := by
  rw [sendResponse]; split <;> rfl

@[simp] theorem sendResponse_cfg (m : List Char) (s : Session) :
    (sendResponse m s).cfg = s.cfg := by
  rw [sendResponse]; split <;> rfl

@[simp] theorem sendResponse_state (m : List Char) (s : Session) :
    (sendResponse m s).state = s.state := by
  rw [sendResponse]; split <;> rfl

@[simp] theorem sendResponse_restartPosition (m : List Char) (s : Session) :
    (sendResponse m s).restartPosition = s.restartPosition := by
  rw [sendResponse]; split <;> rfl

@[simp] theorem sendResponse_commandSocketOpen (m : List Char) (s : Session) :
    (sendResponse m s).commandSocketOpen = s.commandSocketOpen := by
  rw [sendResponse]; split <;> rfl

@[simp] theorem closeCommand_authorizedUser (s : Session) :
    (closeCommand s).authorizedUser = s.authorizedUser := rfl

@[simp] theorem closeCommand_authorizedPass (s : Session) :
    (closeCommand s).authorizedPass = s.authorizedPass := rfl

@[simp] theorem closeCommand_rename (s : Session) :
    (closeCommand s).rename = s.rename := rfl

@[simp] theorem closeCommand_cfg (s : Session) :
    (closeCommand s).cfg = s.cfg := rfl

@[simp] theorem closeCommand_state (s : Session) :
    (closeCommand s).state = s.state := rfl

@[simp] theorem closePasv_authorizedUser (s : Session) :
    (closePasv s).authorizedUser = s.authorizedUser := rfl

@[simp] theorem closePasv_authorizedPass (s : Session) :
    (closePasv s).authorizedPass = s.authorizedPass := rfl

@[simp] theorem closePasv_rename (s : Session) :
    (closePasv s).rename = s.rename := rfl

@[simp] theorem closePasv_cfg (s : Session) :
    (closePasv s).cfg = s.cfg := rfl

@[simp] theorem closeData_authorizedUser (s : Session) :
    (closeData s).authorizedUser = s.authorizedUser := rfl

@[simp] theorem closeData_authorizedPass (s : Session) :
    (closeData s).authorizedPass = s.authorizedPass := rfl

@[simp] theorem closeData_rename (s : Session) :
    (closeData s).rename = s.rename := rfl

@[simp] theorem closeData_cfg (s : Session) :
    (closeData s).cfg = s.cfg := rfl

@[simp] theorem setState_authorizedUser (now : Int) (st : State) (a b : Bool)
    (s : Session) : (setState now st a b s).authorizedUser = s.authorizedUser := by
  cases a <;> cases b <;> cases st <;> rfl

@[simp] theorem setState_authorizedPass (now : Int) (st : State) (a b : Bool)
    (s : Session) : (setState now st a b s).authorizedPass = s.authorizedPass := by
  cases a <;> cases b <;> cases st <;> rfl

@[simp] theorem setState_rename (now : Int) (st : State) (a b : Bool)
    (s : Session) : (setState now st a b s).rename = s.rename := by
  cases a <;> cases b <;> cases st <;> rfl

@[simp] theorem setState_cfg (now : Int) (st : State) (a b : Bool)
    (s : Session) : (setState now st a b s).cfg = s.cfg := by
  cases a <;> cases b <;> cases st <;> rfl

@[simp] theorem setState_state (now : Int) (st : State) (a b : Bool)
    (s : Session) : (setState now st a b s).state = st := by
  cases a <;> cases b <;> cases st <;> rfl

@[simp] theorem setState_commandSocketOpen (now : Int) (st : State) (a b : Bool)
    (s : Session) :
    (setState now st a b s).commandSocketOpen = s.commandSocketOpen := by
  cases a <;> cases b <;> cases st <;> rfl

/-- Returning to COMMAND always clears the REST offset. -/
theorem setState_COMMAND_restartPosition (now : Int) (a b : Bool) (s : Session) :
    (setState now State.COMMAND a b s).restartPosition = 0 := by
  cases a <;> cases b <;> rfl

/-! ## Preservation of the authorization and rename-staging fields -/

/-- The fields tracked by the authorization and rename invariants are
unchanged from `s` to `t`. -/
def Keeps (s t : Session) : Prop :=
  t.authorizedUser = s.authorizedUser ∧ t.authorizedPass = s.authorizedPass ∧
    t.cfg.user = s.cfg.user ∧ t.cfg.pass = s.cfg.pass ∧ t.rename = s.rename

theorem Keeps.refl (s : Session) : Keeps s s := ⟨rfl, rfl, rfl, rfl, rfl⟩

theorem Keeps.trans {s t u : Session} (h1 : Keeps s t) (h2 : Keeps t u) :
    Keeps s u :=
  ⟨h2.1.trans h1.1, h2.2.1.trans h1.2.1, h2.2.2.1.trans h1.2.2.1,
    h2.2.2.2.1.trans h1.2.2.2.1, h2.2.2.2.2.trans h1.2.2.2.2⟩

theorem keeps_sendResponse (m : List Char) (s : Session) :
    Keeps s (sendResponse m s) := by
  refine ⟨?_, ?_, ?_, ?_, ?_⟩ <;> simp

theorem keeps_setState (now : Int) (st : State) (a b : Bool) (s : Session) :
    Keeps s (setState now st a b s) := by
  refine ⟨?_, ?_, ?_, ?_, ?_⟩ <;> simp

theorem keeps_closeCommand (s : Session) : Keeps s (closeCommand s) :=
  ⟨rfl, rfl, rfl, rfl, rfl⟩

theorem keeps_closePasv (s : Session) : Keeps s (closePasv s) :=
  ⟨rfl, rfl, rfl, rfl, rfl⟩

theorem keeps_closeData (s : Session) : Keeps s (closeData s) :=
  ⟨rfl, rfl, rfl, rfl, rfl⟩

theorem keeps_changeDir (env : Env) (args : List Char) (s : Session) :
    Keeps s (changeDir env args s).1 := by
  rw [changeDir]
  split
  · exact Keeps.refl s
  · split
    · exact Keeps.refl s
    · split
      · exact Keeps.refl s
      · split
        · exact ⟨rfl, rfl, rfl, rfl, rfl⟩
        · exact Keeps.refl s

theorem keeps_dataConnect (env : Env) (now : Int) (s : Session) :
    Keeps s (dataConnect env now s).2 := by
  rw [dataConnect]
  split
  · exact ⟨rfl, rfl, rfl, rfl, rfl⟩
  · split
    · exact ⟨rfl, rfl, rfl, rfl, rfl⟩
    · exact ⟨rfl, rfl, rfl, rfl, rfl⟩
    · refine Keeps.trans (t := { s with port := false, dataSocketOpen := true })
        ⟨rfl, rfl, rfl, rfl, rfl⟩ ?_
      exact Keeps.trans (keeps_sendResponse _ _) (keeps_setState _ _ _ _ _)

theorem keeps_send' (m : List Char) {s t : Session} (h : Keeps s t) :
    Keeps s (sendResponse m t) :=
  Keeps.trans h (keeps_sendResponse m t)

theorem keeps_set' (now : Int) (st : State) (a b : Bool) {s t : Session}
    (h : Keeps s t) : Keeps s (setState now st a b t) :=
  Keeps.trans h (keeps_setState now st a b t)

theorem keeps_closeCommand' {s t : Session} (h : Keeps s t) :
    Keeps s (closeCommand t) :=
  Keeps.trans h (keeps_closeCommand t)

theorem keeps_xferFileOpen (env : Env) (path : List Char)
    (mode : XferFileMode) (s : Session) :
    Keeps s (Sum.elim id id (xferFileOpen env path mode s)) := by
  rw [xferFileOpen]
  try dsimp only
  repeat' split
  all_goals simp only [Sum.elim_inl, Sum.elim_inr, id_eq]
  all_goals
    first
      | exact ⟨rfl, rfl, rfl, rfl, rfl⟩
      | exact keeps_sendResponse _ _
      | exact keeps_send' _ ⟨rfl, rfl, rfl, rfl, rfl⟩

theorem keeps_xferFileArm (env : Env) (now : Int) (path : List Char)
    (mode : XferFileMode) (s : Session) :
    Keeps s (xferFileArm env now path mode s) := by
  rw [xferFileArm]
  try dsimp only
  split
  · exact keeps_set' _ _ _ _ (keeps_sendResponse _ _)
  · split
    · rename_i s' heq
      have hk : Keeps s s' := by
        split at heq
        · have h2 := keeps_dataConnect env now
            (setState now State.DATA_CONNECT false true s)
          rw [heq] at h2
          exact Keeps.trans (keeps_setState _ _ _ _ _) h2
        · cases heq
      exact keeps_set' _ _ _ _ (keeps_send' _ hk)
    · rename_i s' heq
      have hk : Keeps s s' := by
        split at heq
        · have h2 := keeps_dataConnect env now
            (setState now State.DATA_CONNECT false true s)
          rw [heq] at h2
          exact Keeps.trans (keeps_setState _ _ _ _ _) h2
        · cases heq
          exact keeps_setState _ _ _ _ _
      refine Keeps.trans hk ?_
      split <;> exact ⟨rfl, rfl, rfl, rfl, rfl⟩

theorem keeps_xferFile (env : Env) (now : Int) (args : List Char)
    (mode : XferFileMode) (s : Session) :
    Keeps s (xferFile env now args mode s) := by
  rw [xferFile]
  try dsimp only
  have base : Keeps s ({ s with zFlushed := false, eof := false, zStreamActive := s.deflate } : Session) := ⟨rfl, rfl, rfl, rfl, rfl⟩
  generalize (s.deflate &&
    if mode = XferFileMode.RETR then !env.deflateInitOk
    else !env.inflateInitOk) = zfail
  split
  · exact keeps_set' _ _ _ _ (keeps_send' _ base)
  · split
    · exact keeps_set' _ _ _ _ (keeps_send' _ base)
    · rename_i path heq2
      split
      · rename_i done heq
        have hk := keeps_xferFileOpen env path mode { s with zFlushed := false, eof := false, zStreamActive := s.deflate }
        rw [heq] at hk
        exact Keeps.trans base hk
      · rename_i s' heq
        have hk := keeps_xferFileOpen env path mode { s with zFlushed := false, eof := false, zStreamActive := s.deflate }
        rw [heq] at hk
        exact Keeps.trans base
          (Keeps.trans hk (keeps_xferFileArm env now path mode s'))

theorem keeps_xferDirTail (env : Env) (now : Int) (mode : XferDirMode)
    (s : Session) : Keeps s (xferDirTail env now mode s) := by
  rw [xferDirTail]
  try dsimp only
  split
  · refine Keeps.trans (t := setState now State.DATA_TRANSFER true true
      (sendResponse (chars "250-Status\r\n") s))
      (keeps_set' _ _ _ _ (keeps_sendResponse _ s)) ?_
    exact ⟨rfl, rfl, rfl, rfl, rfl⟩
  · split
    · exact keeps_set' _ _ _ _ (keeps_sendResponse _ _)
    · have base : Keeps s ({ setState now State.DATA_CONNECT false true s
        with send := true } : Session) :=
        Keeps.trans (keeps_setState _ _ _ _ _) ⟨rfl, rfl, rfl, rfl, rfl⟩
      split
      · split
        · rename_i s' heq
          have hk := keeps_dataConnect env now { setState now State.DATA_CONNECT false true s with send := true }
          rw [heq] at hk
          exact keeps_set' _ _ _ _ (keeps_send' _ (Keeps.trans base hk))
        · rename_i s' heq
          have hk := keeps_dataConnect env now { setState now State.DATA_CONNECT false true s with send := true }
          rw [heq] at hk
          exact Keeps.trans base hk
      · exact base

theorem keeps_xferDirWithStat (env : Env) (now : Int) (mode : XferDirMode)
    (path : List Char) (st : StatRec) (s : Session) :
    Keeps s (xferDirWithStat env now mode path st s) := by
  rw [xferDirWithStat]
  try dsimp only
  split
  · exact Keeps.trans (t := { s with workItem := path })
      ⟨rfl, rfl, rfl, rfl, rfl⟩ (keeps_xferDirTail _ _ _ _)
  · split
    · split
      · exact keeps_set' _ _ _ _ (keeps_sendResponse _ _)
      · refine Keeps.trans (t := { s with lwd := path, dirOpen := true, workItem := path }) ⟨rfl, rfl, rfl, rfl, rfl⟩ ?_
        exact keeps_xferDirTail _ _ _ _
    · split
      · exact keeps_set' _ _ _ _ (keeps_sendResponse _ _)
      · exact Keeps.trans (t := { s with workItem := path })
          ⟨rfl, rfl, rfl, rfl, rfl⟩ (keeps_xferDirTail _ _ _ _)

theorem keeps_xferDirArg (env : Env) (now : Int) (args : List Char)
    (mode : XferDirMode) (s out : Session)
    (h : xferDirArg env now args mode s = some out) : Keeps s out := by
  rw [xferDirArg] at h
  rcases h1 : buildResolvedPath env.statFn s.cwd args with _ | path
  · rw [h1] at h
    dsimp only at h
    cases h
  · rw [h1] at h
    dsimp only at h
    rcases h2 : env.statFn path with _ | st
    · rw [h2] at h
      cases h
    · rw [h2] at h
      dsimp only at h
      cases h
      exact keeps_xferDirWithStat env now mode path st s

theorem keeps_xferDirBody (env : Env) (now : Int) (args : List Char)
    (mode : XferDirMode) (w : Bool) (s : Session) :
    Keeps s (xferDirBody env now args mode w s) := by
  rw [xferDirBody]
  try dsimp only
  split
  · split
    · rename_i out heq
      exact keeps_xferDirArg env now args mode _ out heq
    · split
      · split
        · rename_i out heq
          exact keeps_xferDirArg env now _ mode _ out heq
        · exact keeps_set' _ _ _ _ (keeps_sendResponse _ _)
      · exact keeps_set' _ _ _ _ (keeps_sendResponse _ _)
  · split
    · exact Keeps.trans (t := { s with workItem := s.cwd })
        ⟨rfl, rfl, rfl, rfl, rfl⟩ (keeps_xferDirTail _ _ _ _)
    · split
      · exact keeps_set' _ _ _ _ (keeps_sendResponse _ _)
      · refine Keeps.trans (t := { s with lwd := s.cwd, dirOpen := true, workItem := ({ s with lwd := s.cwd, dirOpen := true } : Session).lwd }) ⟨rfl, rfl, rfl, rfl, rfl⟩ ?_
        exact keeps_xferDirTail _ _ _ _

theorem keeps_xferDir (env : Env) (now : Int) (args : List Char)
    (mode : XferDirMode) (w : Bool) (s : Session) :
    Keeps s (xferDir env now args mode w s) := by
  rw [xferDir]
  try dsimp only
  have base : Keeps s ({ s with xferDirMode := mode, recv := false, send := true, zFlushed := false, eof := false, filePosition := 0, zStreamPosition := 0, zStreamActive := s.deflate } : Session) :=
    ⟨rfl, rfl, rfl, rfl, rfl⟩
  split
  · exact keeps_set' _ _ _ _ (keeps_send' _ base)
  · refine Keeps.trans (t := { s with xferDirMode := mode, recv := false, send := true, zFlushed := false, eof := false, filePosition := 0, zStreamPosition := 0, zStreamActive := s.deflate, transfer := some TransferFn.listT }) ⟨rfl, rfl, rfl, rfl, rfl⟩ ?_
    exact keeps_xferDirBody env now args mode w _

theorem keeps_optsMLSTGo (fuel : Nat) (p : List Char) (s : Session) :
    Keeps s (optsMLSTGo fuel s p) := by
  induction fuel generalizing s p with
  | zero =>
    rcases p with _ | ⟨c, rest⟩ <;> exact Keeps.refl _
  | succ fuel ih =>
    rcases p with _ | ⟨c, rest⟩
    · exact Keeps.refl _
    · rw [optsMLSTGo]
      have step : ∀ s' : Session, Keeps s s' → Keeps s
          (match (c :: rest).dropWhile (fun c => c != ';') with
           | [] => s'
           | _ :: rest' => optsMLSTGo fuel s' rest') := by
        intro s' hk
        split
        · exact hk
        · exact Keeps.trans hk (ih _ _)
      apply step
      repeat' split
      all_goals
        first
          | exact ⟨rfl, rfl, rfl, rfl, rfl⟩
          | exact Keeps.refl _

theorem keeps_cfgDeflate (lv : Nat) (s : Session) :
    Keeps s { s with cfg := { s.cfg with deflateLevel := lv } } :=
  ⟨rfl, rfl, rfl, rfl, rfl⟩

theorem keeps_optsModeZGo (fuel : Nat) (ws : List (List Char))
    (level : Option Nat) (s : Session) :
    Keeps s (optsModeZGo fuel s level ws) := by
  induction fuel generalizing s level ws with
  | zero =>
    rcases ws with _ | ⟨w, rest⟩
    · rcases level with _ | lv <;> exact keeps_sendResponse _ _
    · exact Keeps.refl _
  | succ fuel ih =>
    rcases ws with _ | ⟨w, rest⟩
    · rcases level with _ | lv <;> exact keeps_sendResponse _ _
    · rw [optsModeZGo.eq_def]
      try dsimp only
      split
      · split
        · exact keeps_sendResponse _ _
        · split
          · split
            · exact Keeps.trans (keeps_cfgDeflate _ s) (ih _ _ _)
            · exact keeps_sendResponse _ _
          · exact keeps_sendResponse _ _
      · exact keeps_sendResponse _ _

theorem keeps_ABOR (env : Env) (now : Int) (args : List Char) (s : Session) :
    Keeps s (ABOR env now args s) := by
  rw [ABOR]
  split
  · exact keeps_sendResponse _ _
  · exact keeps_set' _ _ _ _ (keeps_send' _ (keeps_sendResponse _ _))

theorem keeps_ALLO (env : Env) (now : Int) (args : List Char) (s : Session) :
    Keeps s (ALLO env now args s) :=
  keeps_set' _ _ _ _ (keeps_sendResponse _ _)

theorem keeps_APPE (env : Env) (now : Int) (args : List Char) (s : Session) :
    Keeps s (APPE env now args s) := by
  rw [APPE]
  split
  · exact keeps_send' _ (keeps_setState _ _ _ _ _)
  · exact keeps_xferFile _ _ _ _ _

theorem keeps_CDUP (env : Env) (now : Int) (args : List Char) (s : Session) :
    Keeps s (CDUP env now args s) := by
  rw [CDUP]
  try dsimp only
  split
  · exact keeps_send' _ (keeps_setState _ _ _ _ _)
  · split
    · rename_i s' heq
      have hk := keeps_changeDir env (chars "..")
        (setState now State.COMMAND false false s)
      rw [heq] at hk
      exact keeps_send' _ (Keeps.trans (keeps_setState _ _ _ _ _) hk)
    · rename_i s' heq
      have hk := keeps_changeDir env (chars "..")
        (setState now State.COMMAND false false s)
      rw [heq] at hk
      exact keeps_send' _ (Keeps.trans (keeps_setState _ _ _ _ _) hk)

theorem keeps_CWD (env : Env) (now : Int) (args : List Char) (s : Session) :
    Keeps s (CWD env now args s) := by
  rw [CWD]
  try dsimp only
  split
  · exact keeps_send' _ (keeps_setState _ _ _ _ _)
  · split
    · rename_i s' heq
      have hk := keeps_changeDir env args
        (setState now State.COMMAND false false s)
      rw [heq] at hk
      exact keeps_send' _ (Keeps.trans (keeps_setState _ _ _ _ _) hk)
    · rename_i s' heq
      have hk := keeps_changeDir env args
        (setState now State.COMMAND false false s)
      rw [heq] at hk
      exact keeps_send' _ (Keeps.trans (keeps_setState _ _ _ _ _) hk)

theorem keeps_DELE (env : Env) (now : Int) (args : List Char) (s : Session) :
    Keeps s (DELE env now args s) := by
  rw [DELE]
  try dsimp only
  split
  · exact keeps_send' _ (keeps_setState _ _ _ _ _)
  · split
    · exact keeps_send' _ (keeps_setState _ _ _ _ _)
    · split <;> exact keeps_send' _ (keeps_setState _ _ _ _ _)

theorem keeps_FEAT (env : Env) (now : Int) (args : List Char) (s : Session) :
    Keeps s (FEAT env now args s) :=
  keeps_send' _ (keeps_setState _ _ _ _ _)

theorem keeps_HELP (env : Env) (now : Int) (args : List Char) (s : Session) :
    Keeps s (HELP env now args s) :=
  keeps_send' _ (keeps_setState _ _ _ _ _)

theorem keeps_LIST (env : Env) (now : Int) (args : List Char) (s : Session) :
    Keeps s (LIST env now args s) := by
  rw [LIST]
  split
  · exact keeps_send' _ (keeps_setState _ _ _ _ _)
  · exact keeps_xferDir _ _ _ _ _ _

theorem keeps_MDTM (env : Env) (now : Int) (args : List Char) (s : Session) :
    Keeps s (MDTM env now args s) := by
  rw [MDTM]
  try dsimp only
  split <;> exact keeps_send' _ (keeps_setState _ _ _ _ _)

theorem keeps_MKD (env : Env) (now : Int) (args : List Char) (s : Session) :
    Keeps s (MKD env now args s) := by
  rw [MKD]
  try dsimp only
  split
  · exact keeps_send' _ (keeps_setState _ _ _ _ _)
  · split
    · exact keeps_send' _ (keeps_setState _ _ _ _ _)
    · split <;> exact keeps_send' _ (keeps_setState _ _ _ _ _)

theorem keeps_MLSD (env : Env) (now : Int) (args : List Char) (s : Session) :
    Keeps s (MLSD env now args s) := by
  rw [MLSD]
  split
  · exact keeps_send' _ (keeps_setState _ _ _ _ _)
  · exact keeps_xferDir _ _ _ _ _ _

theorem keeps_MLST (env : Env) (now : Int) (args : List Char) (s : Session) :
    Keeps s (MLST env now args s) := by
  rw [MLST]
  split
  · exact keeps_send' _ (keeps_setState _ _ _ _ _)
  · exact keeps_xferDir _ _ _ _ _ _

theorem keeps_MODE (env : Env) (now : Int) (args : List Char) (s : Session) :
    Keeps s (MODE env now args s) := by
  unfold MODE
  try dsimp only
  split
  · exact keeps_send' _ (Keeps.trans (keeps_setState _ _ _ _ _)
      ⟨rfl, rfl, rfl, rfl, rfl⟩)
  · split
    · exact keeps_send' _ (Keeps.trans (keeps_setState _ _ _ _ _)
        ⟨rfl, rfl, rfl, rfl, rfl⟩)
    · exact keeps_send' _ (keeps_setState _ _ _ _ _)

theorem keeps_NLST (env : Env) (now : Int) (args : List Char) (s : Session) :
    Keeps s (NLST env now args s) := by
  rw [NLST]
  try dsimp only
  split
  · exact keeps_send' _ (keeps_setState _ _ _ _ _)
  · split
    · split
      · exact keeps_set' _ _ _ _ (keeps_sendResponse _ _)
      · have base : Keeps s ({ s with transfer := some TransferFn.globT } : Session) :=
          ⟨rfl, rfl, rfl, rfl, rfl⟩
        split
        · exact keeps_set' _ _ _ _ (keeps_send' _ base)
        · have base2 : Keeps s ({ setState now State.DATA_CONNECT false true { s with transfer := some TransferFn.globT } with send := true } : Session) :=
            Keeps.trans base (Keeps.trans (keeps_setState _ _ _ _ _)
              ⟨rfl, rfl, rfl, rfl, rfl⟩)
          split
          · split
            · rename_i s' heq
              have hk := keeps_dataConnect env now { setState now State.DATA_CONNECT false true { s with transfer := some TransferFn.globT } with send := true }
              rw [heq] at hk
              exact keeps_set' _ _ _ _ (keeps_send' _ (Keeps.trans base2 hk))
            · rename_i s' heq
              have hk := keeps_dataConnect env now { setState now State.DATA_CONNECT false true { s with transfer := some TransferFn.globT } with send := true }
              rw [heq] at hk
              exact Keeps.trans base2 hk
          · exact base2
    · exact keeps_xferDir _ _ _ _ _ _

theorem keeps_NOOP (env : Env) (now : Int) (args : List Char) (s : Session) :
    Keeps s (NOOP env now args s) :=
  keeps_sendResponse _ _

theorem keeps_OPTS (env : Env) (now : Int) (args : List Char) (s : Session) :
    Keeps s (OPTS env now args s) := by
  rw [OPTS]
  try dsimp only
  split
  · exact keeps_send' _ (keeps_setState _ _ _ _ _)
  · split
    · refine keeps_send' _ ?_
      refine Keeps.trans (t := { setState now State.COMMAND false false s with mlstType := false, mlstSize := false, mlstModify := false, mlstPerm := false, mlstUnixMode := false }) (Keeps.trans (keeps_setState _ _ _ _ _) ⟨rfl, rfl, rfl, rfl, rfl⟩) ?_
      exact keeps_optsMLSTGo _ _ _
    · split
      · exact Keeps.trans (keeps_setState _ _ _ _ _) (keeps_optsModeZGo _ _ _ _)
      · exact keeps_send' _ (keeps_setState _ _ _ _ _)

theorem keeps_PASV (env : Env) (now : Int) (args : List Char) (s : Session) :
    Keeps s (PASV env now args s) := by
  rw [PASV]
  try dsimp only
  split
  · exact keeps_send' _ (keeps_setState _ _ _ _ _)
  · have base : Keeps s ({ setState now State.COMMAND true true s with pasv := false, port := false } : Session) :=
      Keeps.trans (keeps_setState _ _ _ _ _) ⟨rfl, rfl, rfl, rfl, rfl⟩
    split
    · exact keeps_send' _ base
    · have base2 : Keeps s ({ { setState now State.COMMAND true true s with pasv := false, port := false } with pasvSocketOpen := true } : Session) :=
        Keeps.trans base ⟨rfl, rfl, rfl, rfl, rfl⟩
      split
      · exact keeps_send' _ (Keeps.trans base2 (keeps_closePasv _))
      · split
        · exact keeps_send' _ (Keeps.trans base2 (keeps_closePasv _))
        · exact keeps_send' _ (Keeps.trans base2 ⟨rfl, rfl, rfl, rfl, rfl⟩)

theorem keeps_PORT (env : Env) (now : Int) (args : List Char) (s : Session) :
    Keeps s (PORT env now args s) := by
  rw [PORT]
  try dsimp only
  split
  · exact keeps_send' _ (keeps_setState _ _ _ _ _)
  · have base : Keeps s ({ setState now State.COMMAND true true s with pasv := false, port := false } : Session) :=
      Keeps.trans (keeps_setState _ _ _ _ _) ⟨rfl, rfl, rfl, rfl, rfl⟩
    split
    · exact keeps_send' _ base
    · split
      · exact keeps_send' _ base
      · split
        · exact keeps_send' _ base
        · split
          · exact keeps_send' _ base
          · exact keeps_send' _ (Keeps.trans base ⟨rfl, rfl, rfl, rfl, rfl⟩)

theorem keeps_PWD (env : Env) (now : Int) (args : List Char) (s : Session) :
    Keeps s (PWD env now args s) := by
  rw [PWD]
  split <;> exact keeps_sendResponse _ _

theorem keeps_QUIT (env : Env) (now : Int) (args : List Char) (s : Session) :
    Keeps s (QUIT env now args s) :=
  keeps_closeCommand' (keeps_sendResponse _ _)

theorem keeps_REST (env : Env) (now : Int) (args : List Char) (s : Session) :
    Keeps s (REST env now args s) := by
  rw [REST]
  try dsimp only
  split
  · exact keeps_send' _ (keeps_setState _ _ _ _ _)
  · split
    · exact keeps_send' _ (keeps_setState _ _ _ _ _)
    · exact keeps_send' _ (Keeps.trans (keeps_setState _ _ _ _ _)
        ⟨rfl, rfl, rfl, rfl, rfl⟩)

theorem keeps_RETR (env : Env) (now : Int) (args : List Char) (s : Session) :
    Keeps s (RETR env now args s) := by
  rw [RETR]
  split
  · exact keeps_send' _ (keeps_setState _ _ _ _ _)
  · exact keeps_xferFile _ _ _ _ _

theorem keeps_RMD (env : Env) (now : Int) (args : List Char) (s : Session) :
    Keeps s (RMD env now args s) := by
  rw [RMD]
  try dsimp only
  split
  · exact keeps_send' _ (keeps_setState _ _ _ _ _)
  · split
    · exact keeps_send' _ (keeps_setState _ _ _ _ _)
    · split <;> exact keeps_send' _ (keeps_setState _ _ _ _ _)

theorem keeps_SIZE (env : Env) (now : Int) (args : List Char) (s : Session) :
    Keeps s (SIZE env now args s) := by
  rw [SIZE]
  try dsimp only
  split
  · exact keeps_send' _ (keeps_setState _ _ _ _ _)
  · split
    · exact keeps_send' _ (keeps_setState _ _ _ _ _)
    · split
      · exact keeps_send' _ (keeps_setState _ _ _ _ _)
      · split <;> exact keeps_send' _ (keeps_setState _ _ _ _ _)

theorem keeps_STAT (env : Env) (now : Int) (args : List Char) (s : Session) :
    Keeps s (STAT env now args s) := by
  rw [STAT]
  try dsimp only
  split
  · exact keeps_sendResponse _ _
  · split
    · exact keeps_sendResponse _ _
    · split
      · exact keeps_sendResponse _ _
      · split
        · exact keeps_send' _ (keeps_setState _ _ _ _ _)
        · exact keeps_xferDir _ _ _ _ _ _

theorem keeps_STOR (env : Env) (now : Int) (args : List Char) (s : Session) :
    Keeps s (STOR env now args s) := by
  rw [STOR]
  split
  · exact keeps_send' _ (keeps_setState _ _ _ _ _)
  · exact keeps_xferFile _ _ _ _ _

theorem keeps_STOU (env : Env) (now : Int) (args : List Char) (s : Session) :
    Keeps s (STOU env now args s) :=
  keeps_send' _ (keeps_setState _ _ _ _ _)

theorem keeps_STRU (env : Env) (now : Int) (args : List Char) (s : Session) :
    Keeps s (STRU env now args s) := by
  rw [STRU]
  try dsimp only
  split <;> exact keeps_send' _ (keeps_setState _ _ _ _ _)

theorem keeps_SYST (env : Env) (now : Int) (args : List Char) (s : Session) :
    Keeps s (SYST env now args s) :=
  keeps_send' _ (keeps_setState _ _ _ _ _)

theorem keeps_TYPE (env : Env) (now : Int) (args : List Char) (s : Session) :
    Keeps s (TYPE env now args s) :=
  keeps_send' _ (keeps_setState _ _ _ _ _)

/-- RNFR changes only the rename staging (and the reply log/state): the
authorization flags and the configured user/password are untouched. -/
theorem RNFR_auth (env : Env) (now : Int) (args : List Char) (s : Session) :
    (RNFR env now args s).authorizedUser = s.authorizedUser ∧
    (RNFR env now args s).authorizedPass = s.authorizedPass ∧
    (RNFR env now args s).cfg.user = s.cfg.user ∧
    (RNFR env now args s).cfg.pass = s.cfg.pass := by
  rw [RNFR]
  try dsimp only
  repeat' split
  all_goals refine ⟨?_, ?_, ?_, ?_⟩ <;> simp

theorem RNTO_auth (env : Env) (now : Int) (args : List Char) (s : Session) :
    (RNTO env now args s).authorizedUser = s.authorizedUser ∧
    (RNTO env now args s).authorizedPass = s.authorizedPass ∧
    (RNTO env now args s).cfg.user = s.cfg.user ∧
    (RNTO env now args s).cfg.pass = s.cfg.pass := by
  rw [RNTO]
  try dsimp only
  repeat' split
  all_goals refine ⟨?_, ?_, ?_, ?_⟩ <;> simp

/-- An RNTO that starts with an empty staging field leaves it empty. -/
theorem RNTO_rename_empty (env : Env) (now : Int) (args : List Char)
    (s : Session) (hr : s.rename = []) :
    (RNTO env now args s).rename = [] := by
  rw [RNTO]
  try dsimp only
  repeat' split
  all_goals simp [hr]

/-- SITE preserves the authorization flags and the rename staging, and
(being gated on `authorized`) the configured user and password whenever
the session is not authorized. -/
theorem SITE_auth (env : Env) (now : Int) (args : List Char) (s : Session) :
    (SITE env now args s).authorizedUser = s.authorizedUser ∧
    (SITE env now args s).authorizedPass = s.authorizedPass ∧
    (SITE env now args s).rename = s.rename := by
  rw [SITE]
  try dsimp only
  repeat' split
  all_goals refine ⟨?_, ?_, ?_⟩ <;> simp

theorem SITE_cfg (env : Env) (now : Int) (args : List Char) (s : Session)
    (h : authorized s = false) :
    (SITE env now args s).cfg.user = s.cfg.user ∧
    (SITE env now args s).cfg.pass = s.cfg.pass := by
  rw [SITE]
  try dsimp only
  repeat' split
  all_goals
    first
      | simp_all [authorized]
      | (refine ⟨?_, ?_⟩ <;> simp)

/-- The effect of USER on the authorization state: `authorizedUser`
becomes true exactly when the configured user is empty or the argument
matches it; nothing else tracked here changes. -/
theorem USER_effect (env : Env) (now : Int) (args : List Char) (s : Session) :
    (USER env now args s).authorizedUser =
      (decide (s.cfg.user = []) || decide (s.cfg.user = args)) ∧
    (USER env now args s).authorizedPass = s.authorizedPass ∧
    (USER env now args s).cfg = s.cfg ∧
    (USER env now args s).rename = s.rename := by
  rw [USER]
  try dsimp only
  repeat' split
  all_goals refine ⟨?_, ?_, ?_, ?_⟩ <;> simp_all

/-- The effect of PASS on the authorization state: `authorizedPass`
becomes true exactly when USER previously succeeded (or no user is
configured) and the password matches (or none is configured). -/
theorem PASS_effect (env : Env) (now : Int) (args : List Char) (s : Session) :
    (PASS env now args s).authorizedPass =
      ((decide (s.cfg.user = []) || s.authorizedUser) &&
        (decide (s.cfg.pass = []) || decide (s.cfg.pass = args))) ∧
    (PASS env now args s).authorizedUser = s.authorizedUser ∧
    (PASS env now args s).cfg = s.cfg ∧
    (PASS env now args s).rename = s.rename := by
  rw [PASS]
  try dsimp only
  repeat' split
  all_goals refine ⟨?_, ?_, ?_, ?_⟩ <;> simp_all
  all_goals
    rcases Bool.eq_false_or_eq_true s.authorizedUser with h | h <;> simp_all

/-- Classification of the effect of one handler invocation on the
authorization state, relative to a reference session `s` whose tracked
projections agree with the session `X` the handler actually runs on. -/
def AuthStep (s T : Session) (lk : Option Handler) (args : List Char) : Prop :=
  ((T.authorizedUser = s.authorizedUser ∧ T.authorizedPass = s.authorizedPass) ∧
    (T.cfg.user = s.cfg.user ∧ T.cfg.pass = s.cfg.pass ∨ authorized s = true)) ∨
  (lk = some Handler.hUSER ∧
    T.authorizedUser = (decide (s.cfg.user = []) || decide (s.cfg.user = args)) ∧
    T.authorizedPass = s.authorizedPass ∧
    T.cfg.user = s.cfg.user ∧ T.cfg.pass = s.cfg.pass) ∨
  (lk = some Handler.hPASS ∧
    T.authorizedPass = ((decide (s.cfg.user = []) || s.authorizedUser) &&
      (decide (s.cfg.pass = []) || decide (s.cfg.pass = args))) ∧
    T.authorizedUser = s.authorizedUser ∧
    T.cfg.user = s.cfg.user ∧ T.cfg.pass = s.cfg.pass)

theorem applyHandler_authStep (h : Handler) (env : Env) (now : Int)
    (args : List Char) (X s : Session)
    (hXu : X.authorizedUser = s.authorizedUser)
    (hXp : X.authorizedPass = s.authorizedPass)
    (hXcu : X.cfg.user = s.cfg.user) (hXcp : X.cfg.pass = s.cfg.pass) :
    AuthStep s (applyHandler h env now args X) (some h) args := by
  have hXau : authorized X = authorized s := by
    rw [authorized, authorized, hXu, hXp]
  cases h with
  | hABOR =>
    have k := keeps_ABOR env now args X
    exact Or.inl ⟨⟨k.1.trans hXu, k.2.1.trans hXp⟩,
      Or.inl ⟨k.2.2.1.trans hXcu, k.2.2.2.1.trans hXcp⟩⟩
  | hALLO =>
    have k := keeps_ALLO env now args X
    exact Or.inl ⟨⟨k.1.trans hXu, k.2.1.trans hXp⟩,
      Or.inl ⟨k.2.2.1.trans hXcu, k.2.2.2.1.trans hXcp⟩⟩
  | hAPPE =>
    have k := keeps_APPE env now args X
    exact Or.inl ⟨⟨k.1.trans hXu, k.2.1.trans hXp⟩,
      Or.inl ⟨k.2.2.1.trans hXcu, k.2.2.2.1.trans hXcp⟩⟩
  | hCDUP =>
    have k := keeps_CDUP env now args X
    exact Or.inl ⟨⟨k.1.trans hXu, k.2.1.trans hXp⟩,
      Or.inl ⟨k.2.2.1.trans hXcu, k.2.2.2.1.trans hXcp⟩⟩
  | hCWD =>
    have k := keeps_CWD env now args X
    exact Or.inl ⟨⟨k.1.trans hXu, k.2.1.trans hXp⟩,
      Or.inl ⟨k.2.2.1.trans hXcu, k.2.2.2.1.trans hXcp⟩⟩
  | hDELE =>
    have k := keeps_DELE env now args X
    exact Or.inl ⟨⟨k.1.trans hXu, k.2.1.trans hXp⟩,
      Or.inl ⟨k.2.2.1.trans hXcu, k.2.2.2.1.trans hXcp⟩⟩
  | hFEAT =>
    have k := keeps_FEAT env now args X
    exact Or.inl ⟨⟨k.1.trans hXu, k.2.1.trans hXp⟩,
      Or.inl ⟨k.2.2.1.trans hXcu, k.2.2.2.1.trans hXcp⟩⟩
  | hHELP =>
    have k := keeps_HELP env now args X
    exact Or.inl ⟨⟨k.1.trans hXu, k.2.1.trans hXp⟩,
      Or.inl ⟨k.2.2.1.trans hXcu, k.2.2.2.1.trans hXcp⟩⟩
  | hLIST =>
    have k := keeps_LIST env now args X
    exact Or.inl ⟨⟨k.1.trans hXu, k.2.1.trans hXp⟩,
      Or.inl ⟨k.2.2.1.trans hXcu, k.2.2.2.1.trans hXcp⟩⟩
  | hMDTM =>
    have k := keeps_MDTM env now args X
    exact Or.inl ⟨⟨k.1.trans hXu, k.2.1.trans hXp⟩,
      Or.inl ⟨k.2.2.1.trans hXcu, k.2.2.2.1.trans hXcp⟩⟩
  | hMKD =>
    have k := keeps_MKD env now args X
    exact Or.inl ⟨⟨k.1.trans hXu, k.2.1.trans hXp⟩,
      Or.inl ⟨k.2.2.1.trans hXcu, k.2.2.2.1.trans hXcp⟩⟩
  | hMLSD =>
    have k := keeps_MLSD env now args X
    exact Or.inl ⟨⟨k.1.trans hXu, k.2.1.trans hXp⟩,
      Or.inl ⟨k.2.2.1.trans hXcu, k.2.2.2.1.trans hXcp⟩⟩
  | hMLST =>
    have k := keeps_MLST env now args X
    exact Or.inl ⟨⟨k.1.trans hXu, k.2.1.trans hXp⟩,
      Or.inl ⟨k.2.2.1.trans hXcu, k.2.2.2.1.trans hXcp⟩⟩
  | hMODE =>
    have k := keeps_MODE env now args X
    exact Or.inl ⟨⟨k.1.trans hXu, k.2.1.trans hXp⟩,
      Or.inl ⟨k.2.2.1.trans hXcu, k.2.2.2.1.trans hXcp⟩⟩
  | hNLST =>
    have k := keeps_NLST env now args X
    exact Or.inl ⟨⟨k.1.trans hXu, k.2.1.trans hXp⟩,
      Or.inl ⟨k.2.2.1.trans hXcu, k.2.2.2.1.trans hXcp⟩⟩
  | hNOOP =>
    have k := keeps_NOOP env now args X
    exact Or.inl ⟨⟨k.1.trans hXu, k.2.1.trans hXp⟩,
      Or.inl ⟨k.2.2.1.trans hXcu, k.2.2.2.1.trans hXcp⟩⟩
  | hOPTS =>
    have k := keeps_OPTS env now args X
    exact Or.inl ⟨⟨k.1.trans hXu, k.2.1.trans hXp⟩,
      Or.inl ⟨k.2.2.1.trans hXcu, k.2.2.2.1.trans hXcp⟩⟩
  | hPASV =>
    have k := keeps_PASV env now args X
    exact Or.inl ⟨⟨k.1.trans hXu, k.2.1.trans hXp⟩,
      Or.inl ⟨k.2.2.1.trans hXcu, k.2.2.2.1.trans hXcp⟩⟩
  | hPORT =>
    have k := keeps_PORT env now args X
    exact Or.inl ⟨⟨k.1.trans hXu, k.2.1.trans hXp⟩,
      Or.inl ⟨k.2.2.1.trans hXcu, k.2.2.2.1.trans hXcp⟩⟩
  | hPWD =>
    have k := keeps_PWD env now args X
    exact Or.inl ⟨⟨k.1.trans hXu, k.2.1.trans hXp⟩,
      Or.inl ⟨k.2.2.1.trans hXcu, k.2.2.2.1.trans hXcp⟩⟩
  | hQUIT =>
    have k := keeps_QUIT env now args X
    exact Or.inl ⟨⟨k.1.trans hXu, k.2.1.trans hXp⟩,
      Or.inl ⟨k.2.2.1.trans hXcu, k.2.2.2.1.trans hXcp⟩⟩
  | hREST =>
    have k := keeps_REST env now args X
    exact Or.inl ⟨⟨k.1.trans hXu, k.2.1.trans hXp⟩,
      Or.inl ⟨k.2.2.1.trans hXcu, k.2.2.2.1.trans hXcp⟩⟩
  | hRETR =>
    have k := keeps_RETR env now args X
    exact Or.inl ⟨⟨k.1.trans hXu, k.2.1.trans hXp⟩,
      Or.inl ⟨k.2.2.1.trans hXcu, k.2.2.2.1.trans hXcp⟩⟩
  | hRMD =>
    have k := keeps_RMD env now args X
    exact Or.inl ⟨⟨k.1.trans hXu, k.2.1.trans hXp⟩,
      Or.inl ⟨k.2.2.1.trans hXcu, k.2.2.2.1.trans hXcp⟩⟩
  | hSIZE =>
    have k := keeps_SIZE env now args X
    exact Or.inl ⟨⟨k.1.trans hXu, k.2.1.trans hXp⟩,
      Or.inl ⟨k.2.2.1.trans hXcu, k.2.2.2.1.trans hXcp⟩⟩
  | hSTAT =>
    have k := keeps_STAT env now args X
    exact Or.inl ⟨⟨k.1.trans hXu, k.2.1.trans hXp⟩,
      Or.inl ⟨k.2.2.1.trans hXcu, k.2.2.2.1.trans hXcp⟩⟩
  | hSTOR =>
    have k := keeps_STOR env now args X
    exact Or.inl ⟨⟨k.1.trans hXu, k.2.1.trans hXp⟩,
      Or.inl ⟨k.2.2.1.trans hXcu, k.2.2.2.1.trans hXcp⟩⟩
  | hSTOU =>
    have k := keeps_STOU env now args X
    exact Or.inl ⟨⟨k.1.trans hXu, k.2.1.trans hXp⟩,
      Or.inl ⟨k.2.2.1.trans hXcu, k.2.2.2.1.trans hXcp⟩⟩
  | hSTRU =>
    have k := keeps_STRU env now args X
    exact Or.inl ⟨⟨k.1.trans hXu, k.2.1.trans hXp⟩,
      Or.inl ⟨k.2.2.1.trans hXcu, k.2.2.2.1.trans hXcp⟩⟩
  | hSYST =>
    have k := keeps_SYST env now args X
    exact Or.inl ⟨⟨k.1.trans hXu, k.2.1.trans hXp⟩,
      Or.inl ⟨k.2.2.1.trans hXcu, k.2.2.2.1.trans hXcp⟩⟩
  | hTYPE =>
    have k := keeps_TYPE env now args X
    exact Or.inl ⟨⟨k.1.trans hXu, k.2.1.trans hXp⟩,
      Or.inl ⟨k.2.2.1.trans hXcu, k.2.2.2.1.trans hXcp⟩⟩
  | hRNFR =>
    have k := RNFR_auth env now args X
    exact Or.inl ⟨⟨k.1.trans hXu, k.2.1.trans hXp⟩,
      Or.inl ⟨k.2.2.1.trans hXcu, k.2.2.2.trans hXcp⟩⟩
  | hRNTO =>
    have k := RNTO_auth env now args X
    exact Or.inl ⟨⟨k.1.trans hXu, k.2.1.trans hXp⟩,
      Or.inl ⟨k.2.2.1.trans hXcu, k.2.2.2.trans hXcp⟩⟩
  | hSITE =>
    have k := SITE_auth env now args X
    by_cases ha : authorized s = true
    · exact Or.inl ⟨⟨k.1.trans hXu, k.2.1.trans hXp⟩, Or.inr ha⟩
    · have ha2 : authorized X = false := by
        rw [hXau]
        exact Bool.eq_false_iff.mpr ha
      have kc := SITE_cfg env now args X ha2
      exact Or.inl ⟨⟨k.1.trans hXu, k.2.1.trans hXp⟩,
        Or.inl ⟨kc.1.trans hXcu, kc.2.trans hXcp⟩⟩
  | hUSER =>
    have k := USER_effect env now args X
    exact Or.inr (Or.inl ⟨rfl, k.1.trans (by rw [hXcu]),
      k.2.1.trans hXp,
      (congrArg Config.user k.2.2.1).trans hXcu,
      (congrArg Config.pass k.2.2.1).trans hXcp⟩)
  | hPASS =>
    have k := PASS_effect env now args X
    exact Or.inr (Or.inr ⟨rfl, k.1.trans (by rw [hXcu, hXu, hXcp]),
      k.2.1.trans hXu,
      (congrArg Config.user k.2.2.1).trans hXcu,
      (congrArg Config.pass k.2.2.1).trans hXcp⟩)

/-- Classification of one full dispatch step (`execCmd`). -/
theorem execCmd_authStep (env : Env) (now : Int) (verb args : List Char)
    (s : Session) :
    AuthStep s (execCmd env now verb args s) (lookupHandler verb) args := by
  rw [execCmd]
  rcases hl : lookupHandler verb with _ | h
  · refine Or.inl ⟨⟨?_, ?_⟩, Or.inl ⟨?_, ?_⟩⟩ <;> simp
  · dsimp only
    split
    · split
      · refine Or.inl ⟨⟨?_, ?_⟩, Or.inl ⟨?_, ?_⟩⟩ <;> simp
      · exact applyHandler_authStep h env now args s s rfl rfl rfl rfl
    · refine applyHandler_authStep h env now args _ s ?_ ?_ ?_ ?_ <;>
        (split <;> rfl)

@[simp] theorem setState_replies (now : Int) (st : State) (a b : Bool)
    (s : Session) : (setState now st a b s).replies = s.replies := by
  cases a <;> cases b <;> cases st <;> rfl

/-! ## Authorization run invariants -/

theorem runCmds_append (env : Env) (now : Int) (s : Session)
    (l1 l2 : List (List Char × List Char)) :
    runCmds env now s (l1 ++ l2) = runCmds env now (runCmds env now s l1) l2 := by
  induction l1 generalizing s with
  | nil => rfl
  | cons e rest ih =>
    rcases e with ⟨v, a⟩
    simpa only [List.cons_append, runCmds] using ih (execCmd env now v a s)

/-- Index `i` of `evs` dispatches to the USER handler and its argument is
accepted against the username configured in the state reached just before
it runs (an empty configured username accepts anything). -/
def acceptedUserAt (env : Env) (now : Int) (s0 : Session)
    (evs : List (List Char × List Char)) (i : Nat) : Prop :=
  ∃ v a, evs[i]? = some (v, a) ∧ lookupHandler v = some Handler.hUSER ∧
    ((runCmds env now s0 (evs.take i)).cfg.user = [] ∨
     (runCmds env now s0 (evs.take i)).cfg.user = a)

/-- Index `j` of `evs` dispatches to the PASS handler and its argument is
accepted against the password configured in the state reached just before
it runs. -/
def acceptedPassAt (env : Env) (now : Int) (s0 : Session)
    (evs : List (List Char × List Char)) (j : Nat) : Prop :=
  ∃ v a, evs[j]? = some (v, a) ∧ lookupHandler v = some Handler.hPASS ∧
    ((runCmds env now s0 (evs.take j)).cfg.pass = [] ∨
     (runCmds env now s0 (evs.take j)).cfg.pass = a)

/-- `evs` contains an accepted USER strictly before an accepted PASS. -/
def acceptedPairIn (env : Env) (now : Int) (s0 : Session)
    (evs : List (List Char × List Char)) : Prop :=
  ∃ i j, i < j ∧ acceptedUserAt env now s0 evs i ∧
    acceptedPassAt env now s0 evs j

theorem acceptedUserAt_append (env : Env) (now : Int) (s0 : Session)
    (evs : List (List Char × List Char)) (e : List Char × List Char) (i : Nat)
    (h : acceptedUserAt env now s0 evs i) :
    acceptedUserAt env now s0 (evs ++ [e]) i := by
  obtain ⟨v, a, hev, hlk, hcc⟩ := h
  have hi : i < evs.length := (List.getElem?_eq_some_iff.mp hev).choose
  refine ⟨v, a, ?_, hlk, ?_⟩
  · rw [List.getElem?_append_left hi]; exact hev
  · rw [List.take_append_of_le_length (le_of_lt hi)]; exact hcc

theorem acceptedPassAt_append (env : Env) (now : Int) (s0 : Session)
    (evs : List (List Char × List Char)) (e : List Char × List Char) (j : Nat)
    (h : acceptedPassAt env now s0 evs j) :
    acceptedPassAt env now s0 (evs ++ [e]) j := by
  obtain ⟨v, a, hev, hlk, hcc⟩ := h
  have hj : j < evs.length := (List.getElem?_eq_some_iff.mp hev).choose
  refine ⟨v, a, ?_, hlk, ?_⟩
  · rw [List.getElem?_append_left hj]; exact hev
  · rw [List.take_append_of_le_length (le_of_lt hj)]; exact hcc

theorem acceptedPairIn_append (env : Env) (now : Int) (s0 : Session)
    (evs : List (List Char × List Char)) (e : List Char × List Char)
    (h : acceptedPairIn env now s0 evs) :
    acceptedPairIn env now s0 (evs ++ [e]) := by
  obtain ⟨i, j, hij, hu, hp⟩ := h
  exact ⟨i, j, hij, acceptedUserAt_append env now s0 evs e i hu,
    acceptedPassAt_append env now s0 evs e j hp⟩

/-- Run-level invariant: starting from a session with both authorization
latches cleared, (1) `authorizedUser` can only be set by an accepted USER
command, (2) `authorizedPass` can only be set by an accepted USER/PASS
pair in order (unless the initial credentials were empty), and (3) the
configured credentials can only change after such a pair (SITE USER/PASS
require `authorized`). -/
theorem runCmds_auth_invariant (env : Env) (now : Int) (s0 : Session)
    (h0u : s0.authorizedUser = false) (h0p : s0.authorizedPass = false)
    (evs : List (List Char × List Char)) :
    ((runCmds env now s0 evs).authorizedUser = true →
      ∃ i, acceptedUserAt env now s0 evs i) ∧
    ((runCmds env now s0 evs).authorizedPass = true →
      acceptedPairIn env now s0 evs ∨ s0.cfg.user = [] ∨ s0.cfg.pass = []) ∧
    (((runCmds env now s0 evs).cfg.user = s0.cfg.user ∧
      (runCmds env now s0 evs).cfg.pass = s0.cfg.pass) ∨
      acceptedPairIn env now s0 evs ∨ s0.cfg.user = [] ∨ s0.cfg.pass = []) := by
  induction evs using List.reverseRecOn with
  | nil =>
    exact ⟨fun h => absurd (h0u.symm.trans h) Bool.false_ne_true,
      fun h => absurd (h0p.symm.trans h) Bool.false_ne_true,
      Or.inl ⟨rfl, rfl⟩⟩
  | append_singleton evs e ih =>
    rcases e with ⟨v, a⟩
    obtain ⟨ih1, ih2, ih3⟩ := ih
    have hrun : runCmds env now s0 (evs ++ [(v, a)]) =
        execCmd env now v a (runCmds env now s0 evs) := by
      rw [runCmds_append]; rfl
    have hstep := execCmd_authStep env now v a (runCmds env now s0 evs)
    refine ⟨?_, ?_, ?_⟩
    · intro h
      rw [hrun] at h
      rcases hstep with ⟨⟨hu, _⟩, _⟩ | ⟨hlk, hu, _, _, _⟩ | ⟨_, _, hu, _, _⟩
      · rw [hu] at h
        obtain ⟨i, hi⟩ := ih1 h
        exact ⟨i, acceptedUserAt_append env now s0 evs _ i hi⟩
      · rw [hu] at h
        simp only [Bool.or_eq_true, decide_eq_true_eq] at h
        refine ⟨evs.length, v, a, List.getElem?_concat_length evs (v, a), hlk, ?_⟩
        rw [List.take_left]
        exact h
      · rw [hu] at h
        obtain ⟨i, hi⟩ := ih1 h
        exact ⟨i, acceptedUserAt_append env now s0 evs _ i hi⟩
    · intro h
      rw [hrun] at h
      rcases hstep with ⟨⟨_, hp⟩, _⟩ | ⟨_, _, hp, _, _⟩ | ⟨hlk, hp, _, _, _⟩
      · rw [hp] at h
        rcases ih2 h with hP | hc
        · exact Or.inl (acceptedPairIn_append env now s0 evs _ hP)
        · exact Or.inr hc
      · rw [hp] at h
        rcases ih2 h with hP | hc
        · exact Or.inl (acceptedPairIn_append env now s0 evs _ hP)
        · exact Or.inr hc
      · rw [hp] at h
        simp only [Bool.and_eq_true, Bool.or_eq_true, decide_eq_true_eq] at h
        obtain ⟨h1, h2⟩ := h
        have hPassTop : acceptedPassAt env now s0 (evs ++ [(v, a)]) evs.length := by
          refine ⟨v, a, List.getElem?_concat_length evs (v, a), hlk, ?_⟩
          rw [List.take_left]
          exact h2
        rcases h1 with h1 | h1
        · rcases ih3 with ⟨hcu, _⟩ | hP | hc | hc
          · exact Or.inr (Or.inl (hcu.symm.trans h1))
          · exact Or.inl (acceptedPairIn_append env now s0 evs _ hP)
          · exact Or.inr (Or.inl hc)
          · exact Or.inr (Or.inr hc)
        · obtain ⟨i, hi⟩ := ih1 h1
          obtain ⟨v', a', hev, _, _⟩ := hi
          have hilt : i < evs.length := (List.getElem?_eq_some_iff.mp hev).choose
          exact Or.inl ⟨i, evs.length, hilt,
            acceptedUserAt_append env now s0 evs _ i ⟨v', a', hev, by assumption, by assumption⟩,
            hPassTop⟩
    · rw [hrun]
      rcases hstep with ⟨_, hcfg⟩ | ⟨_, _, _, hcu, hcp⟩ | ⟨_, _, _, hcu, hcp⟩
      · rcases hcfg with ⟨hcu, hcp⟩ | hauth
        · rcases ih3 with ⟨h3u, h3p⟩ | hP | hc | hc
          · exact Or.inl ⟨hcu.trans h3u, hcp.trans h3p⟩
          · exact Or.inr (Or.inl (acceptedPairIn_append env now s0 evs _ hP))
          · exact Or.inr (Or.inr (Or.inl hc))
          · exact Or.inr (Or.inr (Or.inr hc))
        · have hap : (runCmds env now s0 evs).authorizedPass = true := by
            rw [authorized] at hauth
            exact (Bool.and_eq_true _ _).mp hauth |>.2
          rcases ih2 hap with hP | hc
          · exact Or.inr (Or.inl (acceptedPairIn_append env now s0 evs _ hP))
          · exact Or.inr (Or.inr hc)
      · rcases ih3 with ⟨h3u, h3p⟩ | hP | hc | hc
        · exact Or.inl ⟨hcu.trans h3u, hcp.trans h3p⟩
        · exact Or.inr (Or.inl (acceptedPairIn_append env now s0 evs _ hP))
        · exact Or.inr (Or.inr (Or.inl hc))
        · exact Or.inr (Or.inr (Or.inr hc))
      · rcases ih3 with ⟨h3u, h3p⟩ | hP | hc | hc
        · exact Or.inl ⟨hcu.trans h3u, hcp.trans h3p⟩
        · exact Or.inr (Or.inl (acceptedPairIn_append env now s0 evs _ hP))
        · exact Or.inr (Or.inr (Or.inl hc))
        · exact Or.inr (Or.inr (Or.inr hc))

/-! ## A concrete environment and configuration for evaluation -/

/-- A filesystem oracle under which every path stats as a world-readable
directory. -/
def statAllDir : List Char → Option StatRec := fun _ =>
  some { mode := 0o040755, size := 0, mtime := 0, nlink := 1, uid := 0, gid := 0 }

/-- A fully permissive environment: all collaborator calls succeed. -/
def envW : Env :=
  { statFn := statAllDir
    lstatFn := statAllDir
    unlinkOk := fun _ => true
    renameOk := fun _ _ => true
    mkdirOk := fun _ => true
    rmdirOk := fun _ => true
    openOk := fun _ _ => true
    openDirOk := fun _ => true
    seekOk := fun _ _ => true
    deflateInitOk := true
    inflateInitOk := true
    socketOk := true
    bindOk := true
    listenOk := true
    pasvName := chars "10.0.0.1"
    pasvPort := 5001
    inetAtonOk := fun _ => true
    connectRes := ConnectRes.connected
    chdirOk := fun _ => true
    globOk := fun _ => false
    saveOk := true
    setPortOk := fun _ => true
    parseDeflateLevel := fun _ => none
    uptime := 0 }

/-- A configuration with a non-empty username and password. -/
def cfgW : Config :=
  { user := chars "alice", pass := chars "secret", portText := [],
    deflateLevel := 6, hostname := chars "host" }

/-- A freshly constructed session under `cfgW`. -/
def sW : Session := initSession cfgW 0

/-- C5: with a non-empty configured username and password, `authorized`
(the conjunction of the two latches) is true after a command sequence only
if the sequence contains a USER command accepted against the username
configured when it ran, strictly before a PASS command accepted against
the password configured when it ran; and a PASS dispatched while
`authorizedUser` is still false is refused with `430 User not
authorized\r\n` and leaves the session unauthorized. -/
theorem C5_auth_order (env : Env) (now now0 : Int) (cfg : Config)
    (hu : cfg.user ≠ []) (hp : cfg.pass ≠ [])
    (evs : List (List Char × List Char)) (pa : List Char) (s : Session) :
    (authorized (runCmds env now (initSession cfg now0) evs) = true →
      ∃ i j, i < j ∧
        acceptedUserAt env now (initSession cfg now0) evs i ∧
        acceptedPassAt env now (initSession cfg now0) evs j) ∧
    (s.state = State.COMMAND → s.authorizedUser = false → s.cfg.user ≠ [] →
      s.commandSocketOpen = true →
      (execCmd env now (chars "PASS") pa s).replies =
        s.replies ++ [chars "430 User not authorized\r\n"] ∧
      authorized (execCmd env now (chars "PASS") pa s) = false) := by
  constructor
  · intro h
    have h0u : (initSession cfg now0).authorizedUser = false := by
      simp [initSession, hu]
    have h0p : (initSession cfg now0).authorizedPass = false := by
      simp [initSession, hp]
    have hinv := runCmds_auth_invariant env now (initSession cfg now0) h0u h0p evs
    rw [authorized, Bool.and_eq_true] at h
    rcases hinv.2.1 h.2 with hP | hc | hc
    · exact hP
    · exact absurd hc hu
    · exact absurd hc hp
  · intro hst hau hcu hcs
    have hstep : execCmd env now (chars "PASS") pa s =
        PASS env now pa { s with rename := [] } := by
      rw [execCmd]
      rw [show lookupHandler (chars "PASS") = some Handler.hPASS from rfl]
      try dsimp only
      rw [if_neg (by simp [hst])]
      try dsimp only
      rw [if_pos (by decide)]
      rfl
    rw [hstep, PASS]
    dsimp only
    rw [if_pos (by simp [hau, hcu]), sendResponse]
    rw [if_pos (by simp [hcs])]
    constructor
    · simp
    · rw [authorized]
      simp [hau]

/-- Evaluation of C5 at a concrete session: a fresh session under `cfgW`
refuses an early PASS with 430 and stays unauthorized. -/
theorem C5_auth_order_witness :
    (execCmd envW 0 (chars "PASS") (chars "secret") sW).replies =
      sW.replies ++ [chars "430 User not authorized\r\n"] ∧
    authorized (execCmd envW 0 (chars "PASS") (chars "secret") sW) = false :=
  (C5_auth_order envW 0 0 cfgW (by decide) (by decide) [] (chars "secret")
      sW).2 (by decide) (by decide) (by decide) (by decide)


/-! ## Rename staging -/

/-- Every handler except RNFR leaves an empty rename staging field
empty. -/
theorem applyHandler_rename_empty (h : Handler) (env : Env) (now : Int)
    (args : List Char) (s : Session) (hne : h ≠ Handler.hRNFR)
    (hr : s.rename = []) : (applyHandler h env now args s).rename = [] := by
  cases h with
  | hABOR => exact (keeps_ABOR env now args s).2.2.2.2.trans hr
  | hALLO => exact (keeps_ALLO env now args s).2.2.2.2.trans hr
  | hAPPE => exact (keeps_APPE env now args s).2.2.2.2.trans hr
  | hCDUP => exact (keeps_CDUP env now args s).2.2.2.2.trans hr
  | hCWD => exact (keeps_CWD env now args s).2.2.2.2.trans hr
  | hDELE => exact (keeps_DELE env now args s).2.2.2.2.trans hr
  | hFEAT => exact (keeps_FEAT env now args s).2.2.2.2.trans hr
  | hHELP => exact (keeps_HELP env now args s).2.2.2.2.trans hr
  | hLIST => exact (keeps_LIST env now args s).2.2.2.2.trans hr
  | hMDTM => exact (keeps_MDTM env now args s).2.2.2.2.trans hr
  | hMKD => exact (keeps_MKD env now args s).2.2.2.2.trans hr
  | hMLSD => exact (keeps_MLSD env now args s).2.2.2.2.trans hr
  | hMLST => exact (keeps_MLST env now args s).2.2.2.2.trans hr
  | hMODE => exact (keeps_MODE env now args s).2.2.2.2.trans hr
  | hNLST => exact (keeps_NLST env now args s).2.2.2.2.trans hr
  | hNOOP => exact (keeps_NOOP env now args s).2.2.2.2.trans hr
  | hOPTS => exact (keeps_OPTS env now args s).2.2.2.2.trans hr
  | hPASV => exact (keeps_PASV env now args s).2.2.2.2.trans hr
  | hPORT => exact (keeps_PORT env now args s).2.2.2.2.trans hr
  | hPWD => exact (keeps_PWD env now args s).2.2.2.2.trans hr
  | hQUIT => exact (keeps_QUIT env now args s).2.2.2.2.trans hr
  | hREST => exact (keeps_REST env now args s).2.2.2.2.trans hr
  | hRETR => exact (keeps_RETR env now args s).2.2.2.2.trans hr
  | hRMD => exact (keeps_RMD env now args s).2.2.2.2.trans hr
  | hSIZE => exact (keeps_SIZE env now args s).2.2.2.2.trans hr
  | hSTAT => exact (keeps_STAT env now args s).2.2.2.2.trans hr
  | hSTOR => exact (keeps_STOR env now args s).2.2.2.2.trans hr
  | hSTOU => exact (keeps_STOU env now args s).2.2.2.2.trans hr
  | hSTRU => exact (keeps_STRU env now args s).2.2.2.2.trans hr
  | hSYST => exact (keeps_SYST env now args s).2.2.2.2.trans hr
  | hTYPE => exact (keeps_TYPE env now args s).2.2.2.2.trans hr
  | hRNFR => exact absurd rfl hne
  | hRNTO => exact RNTO_rename_empty env now args s hr
  | hSITE => exact (SITE_auth env now args s).2.2.trans hr
  | hUSER => exact (USER_effect env now args s).2.2.2.trans hr
  | hPASS => exact (PASS_effect env now args s).2.2.2.trans hr

/-! ## The during-transfer whitelist -/

/-- The six verbs `readCommand` admits outside COMMAND state. -/
def duringTransferOk (verb : List Char) : Bool :=
  ciEq verb (chars "ABOR") || ciEq verb (chars "NOOP") ||
  ciEq verb (chars "PWD") || ciEq verb (chars "QUIT") ||
  ciEq verb (chars "STAT") || ciEq verb (chars "XPWD")

theorem not_duringTransferOk (verb : List Char) :
    (!ciEq verb (chars "ABOR") && !ciEq verb (chars "NOOP") &&
     !ciEq verb (chars "PWD") && !ciEq verb (chars "QUIT") &&
     !ciEq verb (chars "STAT") && !ciEq verb (chars "XPWD")) =
      !duringTransferOk verb := by
  rw [duringTransferOk]
  generalize ciEq verb (chars "ABOR") = a
  generalize ciEq verb (chars "NOOP") = b
  generalize ciEq verb (chars "PWD") = c
  generalize ciEq verb (chars "QUIT") = d
  generalize ciEq verb (chars "STAT") = e
  generalize ciEq verb (chars "XPWD") = f
  cases a <;> cases b <;> cases c <;> cases d <;> cases e <;> cases f <;> rfl

/-! ## Concrete sessions for evaluation -/

/-- An authorized session under `cfgW`. -/
def sAuthW : Session :=
  { sW with authorizedUser := true, authorizedPass := true }

/-- An authorized session mid data transfer. -/
def sXferW : Session :=
  { sAuthW with state := State.DATA_TRANSFER, dataSocketOpen := true, send := true }

/-- An authorized session with a staged rename path. -/
def sRenW : Session := { sAuthW with rename := chars "/a.txt" }

/-- An authorized session with a pending restart offset. -/
def sRestW : Session := { sAuthW with restartPosition := 5 }

/-- C1: dispatching ABOR in DATA_CONNECT or DATA_TRANSFER sends
`225 Aborted\r\n` then `425 Transfer aborted\r\n` on the command channel,
returns the state to COMMAND and keeps the command socket open.  (The
source sends 425, not the 426 of the claim.) -/
theorem C1_ABOR_transfer (env : Env) (now : Int) (args : List Char)
    (s : Session)
    (hs : s.state = State.DATA_CONNECT ∨ s.state = State.DATA_TRANSFER)
    (hcs : s.commandSocketOpen = true) :
    (execCmd env now (chars "ABOR") args s).replies =
      s.replies ++ [chars "225 Aborted\r\n", chars "425 Transfer aborted\r\n"] ∧
    (execCmd env now (chars "ABOR") args s).state = State.COMMAND ∧
    (execCmd env now (chars "ABOR") args s).commandSocketOpen = true := by
  have hne : s.state ≠ State.COMMAND := by
    rcases hs with h | h <;> rw [h] <;> decide
  have hstep : execCmd env now (chars "ABOR") args s = ABOR env now args s := by
    rw [execCmd]
    rw [show lookupHandler (chars "ABOR") = some Handler.hABOR from rfl]
    try dsimp only
    rw [if_pos hne, if_neg (by decide)]
    rfl
  rw [hstep, ABOR, if_neg hne]
  refine ⟨?_, ?_, ?_⟩
  · simp [sendResponse, hcs]
  · simp
  · simp [sendResponse, hcs]

/-- C1 evaluated: ABOR during a transfer emits 225 then 425, and no
`426 Transfer aborted` reply exists in the log. -/
theorem C1_counterexample :
    (execCmd envW 7 (chars "ABOR") [] sXferW).replies =
      [chars "220 Hello!\r\n", chars "225 Aborted\r\n",
       chars "425 Transfer aborted\r\n"] ∧
    chars "426 Transfer aborted\r\n" ∉
      (execCmd envW 7 (chars "ABOR") [] sXferW).replies := by decide

/-- C1 instantiated at a concrete mid-transfer session. -/
theorem C1_witness :
    (execCmd envW 7 (chars "ABOR") [] sXferW).replies =
      sXferW.replies ++
        [chars "225 Aborted\r\n", chars "425 Transfer aborted\r\n"] ∧
    (execCmd envW 7 (chars "ABOR") [] sXferW).state = State.COMMAND ∧
    (execCmd envW 7 (chars "ABOR") [] sXferW).commandSocketOpen = true :=
  C1_ABOR_transfer envW 7 [] sXferW (Or.inr (by decide)) (by decide)

/-- C2: outside COMMAND state, a verb of the handler table that is not one
of the six whitelisted verbs draws `503 Invalid command during transfer`,
a transition to COMMAND and a command-socket close; a whitelisted verb is
dispatched normally; a verb not in the table draws only the 502 reply
(the original claim wrongly covered unknown verbs too). -/
theorem C2_transfer_whitelist (env : Env) (now : Int) (verb args : List Char)
    (s : Session) (hs : s.state ≠ State.COMMAND) :
    (lookupHandler verb = none →
      execCmd env now verb args s =
        sendResponse (chars "502 Invalid command \"" ++ encodePath false verb ++
          (if args ≠ [] then ' ' :: encodePath false args else []) ++
          chars "\"\r\n") s) ∧
    (∀ h, lookupHandler verb = some h → duringTransferOk verb = false →
      execCmd env now verb args s =
        closeCommand (setState now State.COMMAND true true
          (sendResponse (chars "503 Invalid command during transfer\r\n") s))) ∧
    (∀ h, lookupHandler verb = some h → duringTransferOk verb = true →
      execCmd env now verb args s = applyHandler h env now args s) := by
  refine ⟨?_, ?_, ?_⟩
  · intro hnone
    rw [execCmd, hnone]
  · intro h hlk hal
    rw [execCmd, hlk]
    try dsimp only
    rw [if_pos hs, if_pos (by rw [not_duringTransferOk, hal]; rfl)]
  · intro h hlk hal
    rw [execCmd, hlk]
    try dsimp only
    rw [if_pos hs, if_neg (by rw [not_duringTransferOk, hal]; simp)]

/-- C2 refuted in its original breadth: the unknown verb FOO during a
transfer draws 502, not 503, and the transfer is not aborted. -/
theorem C2_counterexample :
    lookupHandler (chars "FOO") = none ∧
    (execCmd envW 7 (chars "FOO") [] sXferW).state = State.DATA_TRANSFER ∧
    (execCmd envW 7 (chars "FOO") [] sXferW).replies =
      [chars "220 Hello!\r\n", chars "502 Invalid command \"FOO\"\r\n"] := by
  decide

/-- C2 instantiated: SYST mid-transfer draws the 503 path, NOOP is
dispatched normally. -/
theorem C2_witness :
    execCmd envW 7 (chars "SYST") [] sXferW =
      closeCommand (setState 7 State.COMMAND true true
        (sendResponse (chars "503 Invalid command during transfer\r\n")
          sXferW)) ∧
    execCmd envW 7 (chars "NOOP") [] sXferW =
      applyHandler Handler.hNOOP envW 7 [] sXferW :=
  ⟨(C2_transfer_whitelist envW 7 (chars "SYST") [] sXferW (by decide)).2.1
      Handler.hSYST (by decide) (by decide),
   (C2_transfer_whitelist envW 7 (chars "NOOP") [] sXferW (by decide)).2.2
      Handler.hNOOP (by decide) (by decide)⟩

/-- C7: REST with an unparsable or overflowing argument replies with the
504 error and leaves `restartPosition` 0 (the entry `setState` already
reset it — the claim's "unchanged" is wrong); a parsed offset is stored
with reply 350; a file transfer seeks the opened file to the stored
offset; and every transition to COMMAND resets the offset to 0. -/
theorem C7_REST_offset (env : Env) (now : Int) (args : List Char)
    (s : Session) (ha : authorized s = true)
    (hcs : s.commandSocketOpen = true) :
    (restParse args 0 = none →
      (REST env now args s).restartPosition = 0 ∧
      (REST env now args s).replies = s.replies ++ [errReply "504"]) ∧
    (∀ n, restParse args 0 = some n →
      (REST env now args s).restartPosition = n ∧
      (REST env now args s).replies = s.replies ++ [chars "350 OK\r\n"]) ∧
    (∀ (pa : List Char) (mode : XferFileMode) (sf t : Session),
      pa ≠ chars "/devZero" → xferFileOpen env pa mode sf = Sum.inl t →
      t.filePosition = sf.restartPosition) ∧
    (∀ (n2 : Int) (a b : Bool) (s2 : Session),
      (setState n2 State.COMMAND a b s2).restartPosition = 0) := by
  have ha2 : authorized (setState now State.COMMAND false false s) = true := by
    rw [authorized] at ha ⊢
    rw [setState_authorizedUser, setState_authorizedPass]
    exact ha
  refine ⟨?_, ?_, ?_, ?_⟩
  · intro hn
    rw [REST]
    try dsimp only
    rw [if_neg (by simp [ha2]), hn]
    constructor
    · simp [setState_COMMAND_restartPosition]
    · simp [sendResponse, hcs]
  · intro n hn
    rw [REST]
    try dsimp only
    rw [if_neg (by simp [ha2]), hn]
    constructor
    · simp
    · simp [sendResponse, hcs]
  · intro pa mode sf t hdev hopen
    rw [xferFileOpen] at hopen
    rw [if_neg hdev] at hopen
    try dsimp only at hopen
    repeat' split at hopen
    all_goals try simp at hopen
    all_goals (subst hopen; rfl)
  · intro n2 a b s2
    exact setState_COMMAND_restartPosition n2 a b s2

/-- C7 refuted on "unchanged": a pending offset of 5 is wiped to 0 by a
rejected REST. -/
theorem C7_counterexample :
    sRestW.restartPosition = 5 ∧
    (REST envW 0 (chars "1x") sRestW).restartPosition = 0 ∧
    (REST envW 0 (chars "1x") sRestW).replies =
      sRestW.replies ++ [errReply "504"] := by decide

/-- C7 instantiated at the rejected argument `1x`. -/
theorem C7_witness :
    (REST envW 0 (chars "1x") sRestW).restartPosition = 0 ∧
    (REST envW 0 (chars "1x") sRestW).replies =
      sRestW.replies ++ [errReply "504"] :=
  (C7_REST_offset envW 0 (chars "1x") sRestW (by decide) (by decide)).1
    (by decide)

/-- C8: a COMMAND-state dispatch of a table verb other than RNTO clears
the rename staging before its handler runs; every handler except RNFR
leaves an empty staging empty; and RNTO with nothing staged replies
`503 Bad sequence of commands`.  (The original claim also covered
unrecognized verbs, whose 502 path clears nothing.) -/
theorem C8_rename_staging (env : Env) (now : Int) (verb args : List Char)
    (s : Session) :
    (s.state = State.COMMAND → ∀ h, lookupHandler verb = some h →
      ciEq verb (chars "RNTO") = false →
      execCmd env now verb args s =
        applyHandler h env now args { s with rename := [] }) ∧
    (∀ h, h ≠ Handler.hRNFR → s.rename = [] →
      (applyHandler h env now args s).rename = []) ∧
    (s.rename = [] → authorized s = true → s.commandSocketOpen = true →
      (RNTO env now args s).replies =
        s.replies ++ [chars "503 Bad sequence of commands\r\n"]) := by
  refine ⟨?_, ?_, ?_⟩
  · intro hst h hlk hrn
    rw [execCmd, hlk]
    try dsimp only
    rw [if_neg (by simp [hst])]
    try dsimp only
    rw [if_pos (by rw [hrn]; rfl)]
  · intro h hne hr
    exact applyHandler_rename_empty h env now args s hne hr
  · intro hr ha hcs
    have ha2 : authorized (setState now State.COMMAND false false s) = true := by
      rw [authorized] at ha ⊢
      rw [setState_authorizedUser, setState_authorizedPass]
      exact ha
    rw [RNTO]
    try dsimp only
    rw [if_neg (by simp [ha2]), if_pos (by simp [hr])]
    simp [sendResponse, hcs]

/-- C8 refuted in its original breadth: the unknown verb FOO leaves the
staged rename path in place. -/
theorem C8_counterexample :
    lookupHandler (chars "FOO") = none ∧ sRenW.state = State.COMMAND ∧
    (execCmd envW 0 (chars "FOO") [] sRenW).rename = chars "/a.txt" := by
  decide

/-- C8 instantiated: PWD clears the staging, RNTO without staging draws
503. -/
theorem C8_witness :
    execCmd envW 0 (chars "PWD") [] sRenW =
      applyHandler Handler.hPWD envW 0 [] { sRenW with rename := [] } ∧
    (RNTO envW 0 (chars "/b.txt") sAuthW).replies =
      sAuthW.replies ++ [chars "503 Bad sequence of commands\r\n"] :=
  ⟨(C8_rename_staging envW 0 (chars "PWD") [] sRenW).1 (by decide)
      Handler.hPWD (by decide) (by decide),
   (C8_rename_staging envW 0 (chars "RNTO") (chars "/b.txt") sAuthW).2.2
      (by decide) (by decide) (by decide)⟩

@[simp] theorem sendResponse_pasv (m : List Char) (s : Session) :
    (sendResponse m s).pasv = s.pasv := by
  rw [sendResponse]; split <;> rfl

@[simp] theorem sendResponse_port (m : List Char) (s : Session) :
    (sendResponse m s).port = s.port := by
  rw [sendResponse]; split <;> rfl

/-- C9: PORT rejects with the 501 error, leaving both passive and active
modes disarmed, when the argument lacks exactly five commas, when the
address fails to parse, when the port-field loop rejects, or when the
final wrapped 32-bit field values exceed 255.  (The 255 check sees the
value after signed-32-bit wraparound, not the written number: the claim
as stated is refuted by `4294967296`, which wraps to 0 and is accepted.) -/
theorem C9_PORT_reject (env : Env) (now : Int) (args : List Char)
    (s : Session) (ha : authorized s = true)
    (hcs : s.commandSocketOpen = true) :
    (commaCount args ≠ 5 →
      (PORT env now args s).replies = s.replies ++ [errReply "501"] ∧
      (PORT env now args s).pasv = false ∧
      (PORT env now args s).port = false) ∧
    (∀ aT pR, splitAtComma4 0 args = (aT, pR) → commaCount args = 5 →
      env.inetAtonOk aT = false →
      (PORT env now args s).replies = s.replies ++ [errReply "501"] ∧
      (PORT env now args s).pasv = false ∧
      (PORT env now args s).port = false) ∧
    (∀ aT pR, splitAtComma4 0 args = (aT, pR) → commaCount args = 5 →
      env.inetAtonOk aT = true →
      portLoop (dotify (pR.getD [])) true 0 0 = none →
      (PORT env now args s).replies = s.replies ++ [errReply "501"] ∧
      (PORT env now args s).pasv = false ∧
      (PORT env now args s).port = false) ∧
    (∀ aT pR val port, splitAtComma4 0 args = (aT, pR) →
      commaCount args = 5 → env.inetAtonOk aT = true →
      portLoop (dotify (pR.getD [])) true 0 0 = some (val, port) →
      (255 < val ∨ 255 < port) →
      (PORT env now args s).replies = s.replies ++ [errReply "501"] ∧
      (PORT env now args s).pasv = false ∧
      (PORT env now args s).port = false) := by
  refine ⟨?_, ?_, ?_, ?_⟩
  · intro h5
    rw [PORT]
    try dsimp only
    rw [if_neg (by simp [ha]), if_pos h5]
    refine ⟨by simp [sendResponse, hcs], by simp, by simp⟩
  · intro aT pR hsplit h5 hiat
    rw [PORT]
    try dsimp only
    rw [if_neg (by simp [ha]), if_neg (by simp [h5]), hsplit]
    try dsimp only
    rw [if_pos (by simp [hiat])]
    refine ⟨by simp [sendResponse, hcs], by simp, by simp⟩
  · intro aT pR hsplit h5 hiat hpl
    rw [PORT]
    try dsimp only
    rw [if_neg (by simp [ha]), if_neg (by simp [h5]), hsplit]
    try dsimp only
    rw [if_neg (by simp [hiat]), hpl]
    refine ⟨by simp [sendResponse, hcs], by simp, by simp⟩
  · intro aT pR val port hsplit h5 hiat hpl hgt
    rw [PORT]
    try dsimp only
    rw [if_neg (by simp [ha]), if_neg (by simp [h5]), hsplit]
    try dsimp only
    rw [if_neg (by simp [hiat]), hpl]
    try dsimp only
    rw [if_pos (by rcases hgt with h | h <;> simp [h])]
    refine ⟨by simp [sendResponse, hcs], by simp, by simp⟩

/-- C9 refuted on out-of-range fields: the field 4294967296 wraps to 0 in
the 32-bit accumulator, passes the 255 check, and arms active mode with
200 OK. -/
theorem C9_counterexample :
    (PORT envW 0 (chars "1,2,3,4,4294967296,0") sAuthW).port = true ∧
    (PORT envW 0 (chars "1,2,3,4,4294967296,0") sAuthW).replies =
      sAuthW.replies ++ [chars "200 OK\r\n"] := by decide

/-- C9 instantiated at an argument with three commas. -/
theorem C9_witness :
    (PORT envW 0 (chars "1,2,3,4") sAuthW).replies =
      sAuthW.replies ++ [errReply "501"] ∧
    (PORT envW 0 (chars "1,2,3,4") sAuthW).pasv = false ∧
    (PORT envW 0 (chars "1,2,3,4") sAuthW).port = false :=
  (C9_PORT_reject envW 0 (chars "1,2,3,4") sAuthW (by decide) (by decide)).1
    (by decide)

/-- C10: the reactor sweep closes the command, passive and data sockets
of a session idle for at least IDLE_TIMEOUT (60) seconds only in a tick
in which NO descriptor of ANY session reported an event; in a tick where
any descriptor anywhere was ready, the sweep touches nothing — the
source's `handled` flag is computed over the whole `pollInfo`, so it does
not distinguish whose descriptor was ready.  (The original per-session
reading of the claim is refuted by a two-session tick.) -/
theorem C10_idle_sweep (now : Int) (entries : List (Bool × Session))
    (i : Nat) (e : Bool × Session) (he : entries[i]? = some e) :
    ((entries.any fun x => x.1) = false → 60 ≤ now - e.2.timestamp →
      ∃ t, (tickSweep now entries)[i]? = some t ∧
        t.commandSocketOpen = false ∧ t.pasvSocketOpen = false ∧
        t.dataSocketOpen = false) ∧
    ((entries.any fun x => x.1) = true →
      (tickSweep now entries)[i]? = some e.2) := by
  constructor
  · intro hq hidle
    have hclose : idleSweep now false e.2 =
        closeData (closePasv (closeCommand e.2)) := by
      rw [idleSweep, if_pos (by simp [IDLE_TIMEOUT]; exact hidle)]
    refine ⟨closeData (closePasv (closeCommand e.2)), ?_, rfl, rfl, rfl⟩
    rw [tickSweep, hq, List.getElem?_map, he]
    simp only [Option.map_some']
    rw [hclose]
  · intro hr
    rw [tickSweep, hr, List.getElem?_map, he]
    rfl

/-- C10 refuted in its original per-session reading: the second session
received no poll event of its own and is idle for the full timeout, yet
it leaves the tick unchanged — all sockets open — because the FIRST
session's descriptor was ready. -/
theorem C10_counterexample :
    (60 : Int) - sW.timestamp ≥ 60 ∧
    (tickSweep 60 [(true, sAuthW), (false, sW)])[1]? = some sW ∧
    sW.commandSocketOpen = true := by decide

/-- C10 instantiated: in a fully quiet tick the idle session is swept. -/
theorem C10_witness :
    ∃ t, (tickSweep 60 [(false, sW)])[0]? = some t ∧
      t.commandSocketOpen = false ∧ t.pasvSocketOpen = false ∧
      t.dataSocketOpen = false :=
  (C10_idle_sweep 60 [(false, sW)] 0 (false, sW) (by decide)).1 (by decide)
    (by decide)

/-! ## MLSD fact lines -/

def S_IFLNK : Nat := 0o120000
def S_IFCHR : Nat := 0o020000
def S_IFBLK : Nat := 0o060000
def S_IFIFO : Nat := 0o010000
def S_IFSOCK : Nat := 0o140000

def S_ISLNK (m : Nat) : Bool := m &&& S_IFMT == S_IFLNK
def S_ISCHR (m : Nat) : Bool := m &&& S_IFMT == S_IFCHR
def S_ISBLK (m : Nat) : Bool := m &&& S_IFMT == S_IFBLK
def S_ISFIFO (m : Nat) : Bool := m &&& S_IFMT == S_IFIFO
def S_ISSOCK (m : Nat) : Bool := m &&& S_IFMT == S_IFSOCK

/-- Proleptic-Gregorian civil date from a shifted day count
(`z0` = days since 1970-01-01 plus 719468), the standard `gmtime`
computation for non-negative times. -/
def civilFromDays (z0 : Nat) : Nat × Nat × Nat :=
  let era := z0 / 146097
  let doe := z0 % 146097
  let yoe := (doe - doe / 1460 + doe / 36524 - doe / 146096) / 365
  let y := yoe + era * 400
  let doy := doe - (365 * yoe + yoe / 4 - yoe / 100)
  let mp := (5 * doy + 2) / 153
  let d := doy - (153 * mp + 2) / 5 + 1
  let m := if mp < 10 then mp + 3 else mp - 9
  (if m ≤ 2 then y + 1 else y, m, d)

/-- The `gmtime` fields (year, month, day, hour, minute, second) of a
non-negative UNIX time. -/
def gmtimeFields (t : Nat) : Nat × Nat × Nat × Nat × Nat × Nat :=
  let ymd := civilFromDays (t / 86400 + 719468)
  let rem := t % 86400
  (ymd.1, ymd.2.1, ymd.2.2, rem / 3600, rem % 3600 / 60, rem % 60)

/-- printf `%04u` (the `%Y` of `strftime` for four-digit years). -/
def pad4 (n : Nat) : List Char :=
  List.replicate (4 - (natToChars n).length) '0' ++ natToChars n

/-- The `Modify=%Y%m%d%H%M%S;` fact. -/
def modifyFact (mtime : Int) : List Char :=
  let f := gmtimeFields mtime.toNat
  chars "Modify=" ++ pad4 f.1 ++ pad2 f.2.1 ++ pad2 f.2.2.1 ++
    pad2 f.2.2.2.1 ++ pad2 f.2.2.2.2.1 ++ pad2 f.2.2.2.2.2 ++ [';']

/-- The default `Type=` fact name of `fillDirent` (PC build: links and
special files report `os.unix=` types). -/
def typeName (mode : Nat) : List Char :=
  if S_ISREG mode then chars "file"
  else if S_ISDIR mode then chars "dir"
  else if S_ISLNK mode then chars "os.unix=symlink"
  else if S_ISCHR mode then chars "os.unix=character"
  else if S_ISBLK mode then chars "os.unix=block"
  else if S_ISFIFO mode then chars "os.unix=fifo"
  else if S_ISSOCK mode then chars "os.unix=socket"
  else chars "???"

/-- The `Perm=` fact of `fillDirent`. -/
def permFact (mode : Nat) : List Char :=
  chars "Perm=" ++
  (if S_ISREG mode && mode &&& S_IWUSR != 0 then ['a'] else []) ++
  (if S_ISDIR mode && mode &&& S_IWUSR != 0 then ['c'] else []) ++
  ['d'] ++
  (if S_ISDIR mode && mode &&& S_IXUSR != 0 then ['e'] else []) ++
  ['f'] ++
  (if S_ISDIR mode && mode &&& S_IRUSR != 0 then ['l'] else []) ++
  (if S_ISDIR mode && mode &&& S_IWUSR != 0 then ['m'] else []) ++
  (if S_ISDIR mode && mode &&& S_IWUSR != 0 then ['p'] else []) ++
  (if S_ISREG mode && mode &&& S_IRUSR != 0 then ['r'] else []) ++
  (if S_ISREG mode && mode &&& S_IWUSR != 0 then ['w'] else []) ++
  [';']

/-- One MLSD/MLST fact line of `fillDirent` (buffer space treated as
unbounded): the enabled facts, a separating space, the name, CRLF. -/
def mlstFactLine (s : Session) (st : StatRec) (path : List Char)
    (ty : Option (List Char)) : List Char :=
  let lead : List Char :=
    if s.xferDirMode = XferDirMode.MLST then [' '] else []
  let facts := lead ++
    (if s.mlstType then chars "Type=" ++ ty.getD (typeName st.mode) ++ [';']
     else []) ++
    (if s.mlstSize then chars "Size=" ++ natToChars st.size ++ [';']
     else []) ++
    (if s.mlstModify then modifyFact st.mtime else []) ++
    (if s.mlstPerm then permFact st.mode else []) ++
    (if s.mlstUnixMode then
      chars "UNIX.mode=0" ++ Nat.toDigits 8 (st.mode &&& 0o7777) ++ [';']
     else [])
  let facts := if facts.getLast? ≠ some ' ' then facts ++ [' '] else facts
  facts ++ path ++ chars "\r\n"

/-- The MLSD data stream of a directory: the `cdir` line for the listed
directory itself when the Type fact is on (`xferDir`), then one line per
entry with `.` and `..` skipped (`listTransfer`). -/
def mlsdListing (s : Session) (dirSt : StatRec) (lwd : List Char)
    (entries : List (List Char × StatRec)) : List (List Char) :=
  (if s.mlstType then [mlstFactLine s dirSt lwd (some (chars "cdir"))]
   else []) ++
  entries.filterMap fun e =>
    if e.1 = chars "." ∨ e.1 = chars ".." then none
    else some (mlstFactLine s e.2 (encodePath false e.1) none)

/-- The listed directory of the C6 scenario. -/
def stDirW : StatRec := ⟨0o040755, 0, 1705320000, 2, 0, 0⟩

/-- The single regular file of the C6 scenario: mode 0644, 1024 bytes,
mtime 2024-01-15 12:00:00 UTC. -/
def stFileW : StatRec := ⟨0o100644, 1024, 1705320000, 1, 0, 0⟩

/-- An authorized session running an MLSD listing. -/
def sMlsdW : Session := { sAuthW with xferDirMode := XferDirMode.MLSD }

/-- C6: with the constructor-default MLST facts (`UNIX.mode` off), MLSD
of a directory holding one regular file of mode 0644, size 1024 and mtime
2024-01-15 12:00:00 UTC emits the directory's own `cdir` line and then
exactly one entry line, which reads
`Type=file;Size=1024;Modify=20240115120000;Perm=adfrw; <name>` — without
the `UNIX.mode=0644;` fact the claim expected. -/
theorem C6_MLSD_listing (s : Session) (name lwd : List Char)
    (hT : s.mlstType = true) (hS : s.mlstSize = true)
    (hM : s.mlstModify = true) (hP : s.mlstPerm = true)
    (hU : s.mlstUnixMode = false) (hMode : s.xferDirMode = XferDirMode.MLSD)
    (h1 : name ≠ chars ".") (h2 : name ≠ chars "..") :
    mlsdListing s stDirW lwd [(name, stFileW)] =
      [chars "Type=cdir;Size=0;Modify=20240115120000;Perm=cdeflmp; " ++ lwd ++
         chars "\r\n",
       chars "Type=file;Size=1024;Modify=20240115120000;Perm=adfrw; " ++
         encodePath false name ++ chars "\r\n"] := by
  simp only [mlsdListing, mlstFactLine, hMode, hT, hS, hM, hP, hU,
    List.filterMap_cons, List.filterMap_nil, h1, h2]
  rfl

/-- C6 refuted: the claimed entry line with the `UNIX.mode=0644;` fact
does not occur in the emitted listing (which also carries a leading
`cdir` line). -/
theorem C6_counterexample :
    chars
        "Type=file;Size=1024;Modify=20240115120000;Perm=adfrw;UNIX.mode=0644; x\r\n"
      ∉ mlsdListing sMlsdW stDirW (chars "/") [(chars "x", stFileW)] ∧
    (mlsdListing sMlsdW stDirW (chars "/") [(chars "x", stFileW)]).length =
      2 := by decide

/-- C6 instantiated at the file name `x` in the directory `/`. -/
theorem C6_witness :
    mlsdListing sMlsdW stDirW (chars "/") [(chars "x", stFileW)] =
      [chars "Type=cdir;Size=0;Modify=20240115120000;Perm=cdeflmp; /\r\n",
       chars "Type=file;Size=1024;Modify=20240115120000;Perm=adfrw; x\r\n"] :=
  (C6_MLSD_listing sMlsdW (chars "x") (chars "/") (by decide) (by decide)
      (by decide) (by decide) (by decide) (by decide) (by decide)
      (by decide)).trans (by decide)

end Ftpd
